import Mathlib

/-!
# Stream transport and protocol exceptions of the Go thrift library

Shallow embedding of `lib/go/thrift/iostream_transport.go` and
`lib/go/thrift/protocol_exception.go`.

Conventions of the embedding.

* A Go interface value of type `io.Reader` / `io.Writer` is a `StreamObj`; the
  nil interface is `StreamObj.nil`.  Objects carry their identity (an `id` for streams
  supplied by the caller, an `addr` for wrappers allocated by package `bufio`)
  and their dynamic method set.
* A method with pointer receiver `p *StreamTransport` is a function of the
  pointed-to struct that returns the updated struct.  Calls made on stream
  objects are recorded, in order, in a trace of `Event`s; what such a call
  returns is given by an environment `Env`, as a function of the object and of
  the calls made so far.
* Allocation of `bufio` wrappers is modelled by a counter `heap`, the next free
  address.
* A run-time panic is `Except.error`.
* A Go `string` is a Lean `String`, a Go `int` is an `Int`.
-/

namespace Thrift

/-! ## Errors -/

/-- A Go `string`. -/
abbrev GoString := String

/-- The struct `tProtocolException`: a reason code and a message. -/
structure tProtocolException where
  typeId : Int
  message : String
deriving DecidableEq, Repr

/-- Modelled from the spec: the reason codes of the transport exception are
declared outside the given sources; only `NOT_OPEN` is used by the stream
transport, every other code is kept abstract. -/
inductive TransportReason
  | NOT_OPEN
  | code (n : Int)
deriving DecidableEq, Repr

/-- Modelled from the spec: the transport exception, a reason and a message
(its declaration is outside the given sources). -/
structure tTransportException where
  typeId : TransportReason
  message : String
deriving DecidableEq, Repr

/-- A non-nil value of the Go interface `error`, classified by what the code
can observe of its dynamic type:
* `protocol e`: the type implements the interface `TProtocolException` (it has
  `TypeId() int` besides `Error()`), as `*tProtocolException` does; `e` holds
  what `TypeId()` and `Error()` return;
* `corruptInput offset`: a `base64.CorruptInputError`, an `int64` offset;
* `other msg`: a value of any other type, `msg` being what `Error()` returns. -/
inductive GoError
  | protocol (e : tProtocolException)
  | corruptInput (offset : Int)
  | other (msg : String)
deriving DecidableEq, Repr

/-- The method `Error()` of an error value.  For `base64.CorruptInputError` it
is the standard library's text followed by the offset in decimal. -/
def GoError.Error : GoError → String
  | .protocol e => e.message
  | .corruptInput offset => "illegal base64 data at input byte " ++ toString offset
  | .other msg => msg

/-- Run-time panics the code can raise. -/
inductive Panic
  | typeAssertion
deriving DecidableEq, Repr

/-! ## protocol_exception.go -/

abbrev UNKNOWN_PROTOCOL_EXCEPTION : Int := 0
abbrev INVALID_DATA : Int := 1
abbrev NEGATIVE_SIZE : Int := 2
abbrev SIZE_LIMIT : Int := 3
abbrev BAD_VERSION : Int := 4
abbrev NOT_IMPLEMENTED : Int := 5

/-- The method `TypeId`. -/
def tProtocolException.TypeId (p : tProtocolException) : Int := p.typeId

/-- The method `Error`. -/
def tProtocolException.Error (p : tProtocolException) : GoString := p.message

/-- The method `String`. -/
def tProtocolException.String (p : tProtocolException) : GoString := p.message

/-- The constructor `NewTProtocolException(t, m)`. -/
def NewTProtocolException (t : Int) (m : String) : tProtocolException :=
  { typeId := t, message := m }

/-- Go's conversion `string(n)` of an integer: the UTF-8 text of the code point
`n`, and U+FFFD when `n` is not a valid code point. -/
def runeToString (n : Int) : String :=
  if 0 ≤ n ∧ n.toNat.isValidChar then String.singleton (Char.ofNat n.toNat)
  else String.singleton (Char.ofNat 0xFFFD)

/-- The unchecked type assertion `err.(TProtocolException)`: it panics on the nil
interface and on every error that is not a protocol exception. -/
def assertTProtocolException : Option GoError → Except Panic tProtocolException
  | some (.protocol e) => .ok e
  | _ => .error Panic.typeAssertion

/-- The assignment `t := e.TypeId(); if t == UNKNOWN_PROTOCOL_EXCEPTION { t = INVALID_DATA }`
shared by the four context constructors. -/
def promoteTypeId (e : tProtocolException) : Int :=
  let t := e.TypeId
  if t = UNKNOWN_PROTOCOL_EXCEPTION then INVALID_DATA else t

def NewTProtocolExceptionReadField (fieldId : Int) (fieldName structName : String)
    (err : Option GoError) : Except Panic tProtocolException :=
  match assertTProtocolException err with
  | .error p => .error p
  | .ok e =>
    .ok (NewTProtocolException (promoteTypeId e)
      ("Unable to read field " ++ runeToString fieldId ++ " (" ++ fieldName ++ ") in "
        ++ structName ++ " due to: " ++ e.Error))

def NewTProtocolExceptionWriteField (fieldId : Int) (fieldName structName : String)
    (err : Option GoError) : Except Panic tProtocolException :=
  match assertTProtocolException err with
  | .error p => .error p
  | .ok e =>
    .ok (NewTProtocolException (promoteTypeId e)
      ("Unable to write field " ++ runeToString fieldId ++ " (" ++ fieldName ++ ") in "
        ++ structName ++ " due to: " ++ e.Error))

def NewTProtocolExceptionReadStruct (structName : String)
    (err : Option GoError) : Except Panic tProtocolException :=
  match assertTProtocolException err with
  | .error p => .error p
  | .ok e =>
    .ok (NewTProtocolException (promoteTypeId e)
      ("Unable to read struct " ++ structName ++ " due to: " ++ e.Error))

def NewTProtocolExceptionWriteStruct (structName : String)
    (err : Option GoError) : Except Panic tProtocolException :=
  match assertTProtocolException err with
  | .error p => .error p
  | .ok e =>
    .ok (NewTProtocolException (promoteTypeId e)
      ("Unable to write struct " ++ structName ++ " due to: " ++ e.Error))

/-- The adapter `newTProtocolExceptionFromError`; the result is an interface
value, `none` being nil. -/
def newTProtocolExceptionFromError (e : Option GoError) : Option tProtocolException :=
  match e with
  | none => none
  | some (.protocol t) => some t
  | some (.corruptInput offset) =>
    some (NewTProtocolException INVALID_DATA (GoError.corruptInput offset).Error)
  | some err => some { typeId := UNKNOWN_PROTOCOL_EXCEPTION, message := err.Error }

/-! ## Stream objects and the environment -/

/-- Method set of a stream object supplied by the caller: whether its dynamic
type has `Read`, `Write`, `Close() error` (`io.Closer`) and `Flush() error`
(the interface `Flusher`). -/
structure Caps where
  reader : Bool
  writer : Bool
  closer : Bool
  flusher : Bool
deriving DecidableEq, Repr

/-- A Go interface value of type `io.Reader`, `io.Writer` or `io.ReadWriter`:
nil, an object supplied by the caller, or one of the wrappers of package
`bufio` (`*bufio.Reader`, `*bufio.Writer`, `*bufio.ReadWriter`), which record
the address they were allocated at, their buffer size and what they wrap. -/
inductive StreamObj
  | nil
  | ext (id : Nat) (caps : Caps)
  | bufReader (addr size : Nat) (rd : StreamObj)
  | bufWriter (addr size : Nat) (wr : StreamObj)
  | bufReadWriter (addr : Nat) (r w : StreamObj)
deriving DecidableEq, Repr

/-- The type assertion `x.(io.Closer)` succeeds: no `bufio` type has a method
`Close`. -/
def StreamObj.isCloser : StreamObj → Bool
  | .ext _ caps => caps.closer
  | _ => false

/-- Modelled from the spec: the interface `Flusher` is declared outside the
given sources; it is the capability of explicit flushing, a method
`Flush() error`, which `*bufio.Writer` and `*bufio.ReadWriter` have. -/
def StreamObj.isFlusher : StreamObj → Bool
  | .ext _ caps => caps.flusher
  | .bufWriter _ _ _ => true
  | .bufReadWriter _ _ _ => true
  | _ => false

/-- The type assertion `x.(io.ReadWriter)` succeeds: the dynamic type has both
`Read` and `Write`. -/
def StreamObj.isReadWriter : StreamObj → Bool
  | .ext _ caps => caps.reader && caps.writer
  | .bufReadWriter _ _ _ => true
  | _ => false

/-- A call made on a stream object. -/
inductive Event
  | close (s : StreamObj)
  | flush (s : StreamObj)
  | read (s : StreamObj) (len : Nat)
  | write (s : StreamObj) (data : List Nat)
deriving DecidableEq, Repr

/-- What lies outside the two source files: the result of each call on a stream
object, given the calls made before it, and the adapter
`NewTTransportExceptionFromError`, a function of the repository that is not
among the given sources.  `readResult` gives the buffer after the call, the
count and the error; `writeResult` the count and the error. -/
structure Env where
  closeResult : StreamObj → List Event → Option GoError
  flushResult : StreamObj → List Event → Option GoError
  readResult : StreamObj → List Event → List Nat → List Nat × Int × Option GoError
  writeResult : StreamObj → List Event → List Nat → Int × Option GoError
  NewTTransportExceptionFromError : Option GoError → Option tTransportException

/-- Number of calls of `Close` on the object `s` recorded in a trace. -/
def closeCalls (s : StreamObj) (tr : List Event) : Nat :=
  tr.count (Event.close s)

/-- Modelled from the spec: the constructor `NewTTransportException(t, m)`,
declared outside the given sources, builds the transport exception from a
reason and a message. -/
def NewTTransportException (t : TransportReason) (m : String) : tTransportException :=
  { typeId := t, message := m }

/-! ## Package bufio -/

/-- The default buffer size of package `bufio`. -/
def bufio.defaultBufSize : Nat := 4096

/-- Go's `bufio.NewReader(rd)`: a `*bufio.Reader` of the default size that is
already large enough is returned itself, anything else is wrapped in a newly
allocated reader. -/
def bufio.NewReader (rd : StreamObj) (heap : Nat) : StreamObj × Nat :=
  match rd with
  | .bufReader _ size _ =>
    if bufio.defaultBufSize ≤ size then (rd, heap)
    else (.bufReader heap bufio.defaultBufSize rd, heap + 1)
  | _ => (.bufReader heap bufio.defaultBufSize rd, heap + 1)

/-- Go's `bufio.NewWriter(w)`, with the same rule as `bufio.NewReader`. -/
def bufio.NewWriter (w : StreamObj) (heap : Nat) : StreamObj × Nat :=
  match w with
  | .bufWriter _ size _ =>
    if bufio.defaultBufSize ≤ size then (w, heap)
    else (.bufWriter heap bufio.defaultBufSize w, heap + 1)
  | _ => (.bufWriter heap bufio.defaultBufSize w, heap + 1)

/-- Go's `bufio.NewReadWriter(r, w)`: a newly allocated pair. -/
def bufio.NewReadWriter (r w : StreamObj) (heap : Nat) : StreamObj × Nat :=
  (.bufReadWriter heap r w, heap + 1)

/-! ## iostream_transport.go -/

structure StreamTransport where
  Reader : StreamObj
  Writer : StreamObj
  IsReadWriter : Bool
deriving DecidableEq, Repr

structure StreamTransportFactory where
  Reader : StreamObj
  Writer : StreamObj
  IsReadWriter : Bool
deriving DecidableEq, Repr

/-- A value of the interface `TTransport`: nil, a `*StreamTransport`, or a
transport of another kind. -/
inductive TTransport
  | nil
  | streamTransport (t : StreamTransport)
  | other (kind : Nat)
deriving DecidableEq, Repr

/-- The zero value `&StreamTransport{}`. -/
def StreamTransport.empty : StreamTransport :=
  { Reader := .nil, Writer := .nil, IsReadWriter := false }

def NewStreamTransportFactory (reader writer : StreamObj) (isReadWriter : Bool) :
    StreamTransportFactory :=
  { Reader := reader, Writer := writer, IsReadWriter := isReadWriter }

def NewStreamTransport (r w : StreamObj) (heap : Nat) : StreamTransport × Nat :=
  let (br, h1) := bufio.NewReader r heap
  let (bw, h2) := bufio.NewWriter w h1
  ({ Reader := br, Writer := bw, IsReadWriter := false }, h2)

def NewStreamTransportR (r : StreamObj) (heap : Nat) : StreamTransport × Nat :=
  let (br, h1) := bufio.NewReader r heap
  ({ Reader := br, Writer := .nil, IsReadWriter := false }, h1)

def NewStreamTransportW (w : StreamObj) (heap : Nat) : StreamTransport × Nat :=
  let (bw, h1) := bufio.NewWriter w heap
  ({ Reader := .nil, Writer := bw, IsReadWriter := false }, h1)

def NewStreamTransportRW (rw : StreamObj) (heap : Nat) : StreamTransport × Nat :=
  let (br, h1) := bufio.NewReader rw heap
  let (bw, h2) := bufio.NewWriter rw h1
  let (bufrw, h3) := bufio.NewReadWriter br bw h2
  ({ Reader := bufrw, Writer := bufrw, IsReadWriter := true }, h3)

/-- The unchecked type assertion `x.(io.ReadWriter)`: it panics on nil and on
every object without both `Read` and `Write`. -/
def assertReadWriter (x : StreamObj) : Except Panic StreamObj :=
  if x.isReadWriter then .ok x else .error Panic.typeAssertion

/-- The method `GetTransport`; `trans` is nil, a `*StreamTransport` (the type
assertion on line 42 succeeds) or a transport of another kind. -/
def StreamTransportFactory.GetTransport (p : StreamTransportFactory) (trans : TTransport)
    (heap : Nat) : Except Panic (StreamTransport × Nat) :=
  match trans with
  | .streamTransport t =>
    if t.IsReadWriter then
      match assertReadWriter t.Reader with
      | .error e => .error e
      | .ok rw => .ok (NewStreamTransportRW rw heap)
    else if t.Reader ≠ .nil ∧ t.Writer ≠ .nil then .ok (NewStreamTransport t.Reader t.Writer heap)
    else if t.Reader ≠ .nil ∧ t.Writer = .nil then .ok (NewStreamTransportR t.Reader heap)
    else if t.Reader = .nil ∧ t.Writer ≠ .nil then .ok (NewStreamTransportW t.Writer heap)
    else .ok (StreamTransport.empty, heap)
  | _ =>
    if p.IsReadWriter then
      match assertReadWriter p.Reader with
      | .error e => .error e
      | .ok rw => .ok (NewStreamTransportRW rw heap)
    else if p.Reader ≠ .nil ∧ p.Writer ≠ .nil then .ok (NewStreamTransport p.Reader p.Writer heap)
    else if p.Reader ≠ .nil ∧ p.Writer = .nil then .ok (NewStreamTransportR p.Reader heap)
    else if p.Reader = .nil ∧ p.Writer ≠ .nil then .ok (NewStreamTransportW p.Writer heap)
    else .ok (StreamTransport.empty, heap)

/-! ### The same functions with the address of the returned struct

Every constructor and every return of `GetTransport` is a composite literal
`&StreamTransport{...}`: a struct allocated anew, whose address is what the
caller receives.  The definitions above give the contents of that struct; the
ones below also give its address, taken from the same counter `heap` as the
addresses of the `bufio` wrappers. -/

/-- A non-nil `*StreamTransport`: the address of the struct and the struct
stored there. -/
structure StreamTransportPtr where
  addr : Nat
  val : StreamTransport
deriving DecidableEq, Repr

/-- A value of the interface `TTransport` with the address of the struct it
points to: nil, a `*StreamTransport`, or a transport of another kind. -/
inductive TTransportPtr
  | nil
  | streamTransport (ptr : StreamTransportPtr)
  | other (kind : Nat)
deriving DecidableEq, Repr

/-- The interface value without the address. -/
def TTransportPtr.erase : TTransportPtr → TTransport
  | .nil => .nil
  | .streamTransport ptr => .streamTransport ptr.val
  | .other kind => .other kind

/-- The composite literal `&StreamTransport{...}` once its fields are
evaluated: the struct is stored at the next free address. -/
def allocStreamTransport (t : StreamTransport) (heap : Nat) : StreamTransportPtr × Nat :=
  ({ addr := heap, val := t }, heap + 1)

/-- `NewStreamTransport` with the address of the struct it returns. -/
def NewStreamTransportPtr (r w : StreamObj) (heap : Nat) : StreamTransportPtr × Nat :=
  let (br, h1) := bufio.NewReader r heap
  let (bw, h2) := bufio.NewWriter w h1
  allocStreamTransport { Reader := br, Writer := bw, IsReadWriter := false } h2

/-- `NewStreamTransportR` with the address of the struct it returns. -/
def NewStreamTransportRPtr (r : StreamObj) (heap : Nat) : StreamTransportPtr × Nat :=
  let (br, h1) := bufio.NewReader r heap
  allocStreamTransport { Reader := br, Writer := .nil, IsReadWriter := false } h1

/-- `NewStreamTransportW` with the address of the struct it returns. -/
def NewStreamTransportWPtr (w : StreamObj) (heap : Nat) : StreamTransportPtr × Nat :=
  let (bw, h1) := bufio.NewWriter w heap
  allocStreamTransport { Reader := .nil, Writer := bw, IsReadWriter := false } h1

/-- `NewStreamTransportRW` with the address of the struct it returns. -/
def NewStreamTransportRWPtr (rw : StreamObj) (heap : Nat) : StreamTransportPtr × Nat :=
  let (br, h1) := bufio.NewReader rw heap
  let (bw, h2) := bufio.NewWriter rw h1
  let (bufrw, h3) := bufio.NewReadWriter br bw h2
  allocStreamTransport { Reader := bufrw, Writer := bufrw, IsReadWriter := true } h3

/-- The method `GetTransport` with addresses: `trans` is nil, a pointer to an
existing `StreamTransport`, or a transport of another kind; every return is a
call of a constructor or the literal `&StreamTransport{}`, none returns
`trans` itself. -/
def StreamTransportFactory.GetTransportPtr (p : StreamTransportFactory) (trans : TTransportPtr)
    (heap : Nat) : Except Panic (StreamTransportPtr × Nat) :=
  match trans with
  | .streamTransport ptr =>
    let t := ptr.val
    if t.IsReadWriter then
      match assertReadWriter t.Reader with
      | .error e => .error e
      | .ok rw => .ok (NewStreamTransportRWPtr rw heap)
    else if t.Reader ≠ .nil ∧ t.Writer ≠ .nil then
      .ok (NewStreamTransportPtr t.Reader t.Writer heap)
    else if t.Reader ≠ .nil ∧ t.Writer = .nil then .ok (NewStreamTransportRPtr t.Reader heap)
    else if t.Reader = .nil ∧ t.Writer ≠ .nil then .ok (NewStreamTransportWPtr t.Writer heap)
    else .ok (allocStreamTransport StreamTransport.empty heap)
  | _ =>
    if p.IsReadWriter then
      match assertReadWriter p.Reader with
      | .error e => .error e
      | .ok rw => .ok (NewStreamTransportRWPtr rw heap)
    else if p.Reader ≠ .nil ∧ p.Writer ≠ .nil then
      .ok (NewStreamTransportPtr p.Reader p.Writer heap)
    else if p.Reader ≠ .nil ∧ p.Writer = .nil then .ok (NewStreamTransportRPtr p.Reader heap)
    else if p.Reader = .nil ∧ p.Writer ≠ .nil then .ok (NewStreamTransportWPtr p.Writer heap)
    else .ok (allocStreamTransport StreamTransport.empty heap)

/-- Result of a method of the transport: the returned value, the transport
after the call and the trace after the call. -/
structure Outcome (α : Type) where
  ret : α
  p : StreamTransport
  trace : List Event

def StreamTransport.IsOpen (_p : StreamTransport) : Bool := true

def StreamTransport.Open (_p : StreamTransport) : Option GoError := none

def StreamTransport.Peek (p : StreamTransport) : Bool := p.IsOpen

/-- The second block of `Close` (lines 124-134), entered with the value of the
local `closedReader`. -/
def StreamTransport.closeWriter (env : Env) (closedReader : Bool) (p : StreamTransport)
    (tr : List Event) : Outcome (Option GoError) :=
  if p.Writer ≠ .nil ∧ (closedReader = false ∨ p.IsReadWriter = false) then
    if p.Writer.isCloser then
      match env.closeResult p.Writer tr with
      | some e => { ret := some e, p := p, trace := tr ++ [Event.close p.Writer] }
      | none =>
        { ret := none, p := { p with Writer := .nil }, trace := tr ++ [Event.close p.Writer] }
    else { ret := none, p := { p with Writer := .nil }, trace := tr }
  else { ret := none, p := p, trace := tr }

/-- The method `Close` (lines 111-135): the first block, which returns early
when the reader fails to close, followed by `closeWriter`. -/
def StreamTransport.Close (env : Env) (p : StreamTransport) (tr : List Event) :
    Outcome (Option GoError) :=
  if p.Reader ≠ .nil then
    if p.Reader.isCloser then
      match env.closeResult p.Reader tr with
      | some e => { ret := some e, p := p, trace := tr ++ [Event.close p.Reader] }
      | none =>
        StreamTransport.closeWriter env true { p with Reader := .nil }
          (tr ++ [Event.close p.Reader])
    else StreamTransport.closeWriter env false { p with Reader := .nil } tr
  else StreamTransport.closeWriter env false p tr

/-- The method `Read`: the returned triple is the buffer after the call, the
count and the error. -/
def StreamTransport.Read (env : Env) (p : StreamTransport) (tr : List Event) (buf : List Nat) :
    Outcome (List Nat × Int × Option tTransportException) :=
  if p.Reader = .nil then
    { ret := (buf, 0, some (NewTTransportException .NOT_OPEN "Cannot read from null inputStream")),
      p := p, trace := tr }
  else
    let (buf1, n, err) := env.readResult p.Reader tr buf
    { ret := (buf1, n, env.NewTTransportExceptionFromError err),
      p := p, trace := tr ++ [Event.read p.Reader buf.length] }

/-- The method `Write`: the returned pair is the count and the error. -/
def StreamTransport.Write (env : Env) (p : StreamTransport) (tr : List Event) (buf : List Nat) :
    Outcome (Int × Option tTransportException) :=
  if p.Writer = .nil then
    { ret := (0, some (NewTTransportException .NOT_OPEN "Cannot write to null outputStream")),
      p := p, trace := tr }
  else
    let (n, err) := env.writeResult p.Writer tr buf
    { ret := (n, env.NewTTransportExceptionFromError err),
      p := p, trace := tr ++ [Event.write p.Writer buf] }

def StreamTransport.Flush (env : Env) (p : StreamTransport) (tr : List Event) :
    Outcome (Option tTransportException) :=
  if p.Writer = .nil then
    { ret := some (NewTTransportException .NOT_OPEN "Cannot flush null outputStream"),
      p := p, trace := tr }
  else if p.Writer.isFlusher then
    match env.flushResult p.Writer tr with
    | some err =>
      { ret := env.NewTTransportExceptionFromError (some err), p := p,
        trace := tr ++ [Event.flush p.Writer] }
    | none => { ret := none, p := p, trace := tr ++ [Event.flush p.Writer] }
  else { ret := none, p := p, trace := tr }

/-- Successive calls of `Close` on the same transport: `closeTimes env n` runs
`Close` `n` times, each on the transport and trace the previous call left, and
returns the final transport and trace. -/
def StreamTransport.closeTimes (env : Env) : Nat → StreamTransport → List Event →
    StreamTransport × List Event
  | 0, p, tr => (p, tr)
  | n + 1, p, tr =>
    StreamTransport.closeTimes env n (p.Close env tr).p (p.Close env tr).trace

/-- An interface value is present: it is not nil. -/
def StreamObj.present : StreamObj → Bool
  | .nil => false
  | _ => true

/-- The shape of a configuration: reader present, writer present, and the
flag `IsReadWriter`. -/
def shapeOf (reader writer : StreamObj) (isReadWriter : Bool) : Bool × Bool × Bool :=
  (reader.present, writer.present, isReadWriter)

/-- The shape of a transport. -/
def StreamTransport.shape (t : StreamTransport) : Bool × Bool × Bool :=
  shapeOf t.Reader t.Writer t.IsReadWriter

/-- The shape of a factory. -/
def StreamTransportFactory.shape (p : StreamTransportFactory) : Bool × Bool × Bool :=
  shapeOf p.Reader p.Writer p.IsReadWriter

/-- The configuration source `GetTransport` selects: the existing transport
when it is a `*StreamTransport`, the factory otherwise. -/
def configSource (p : StreamTransportFactory) (trans : TTransport) :
    StreamObj × StreamObj × Bool :=
  match trans with
  | .streamTransport t => (t.Reader, t.Writer, t.IsReadWriter)
  | _ => (p.Reader, p.Writer, p.IsReadWriter)

/-- Well-formedness of a configuration source as the specification words it:
`IsReadWriter` is true only when the reader is a present combined read/write
stream. -/
def wellFormedSource (src : StreamObj × StreamObj × Bool) : Prop :=
  src.2.2 = true → src.1 ≠ .nil ∧ src.1.isReadWriter = true

/-- Well-formedness of a configuration source, strengthened: when
`IsReadWriter` is true the reader is a present combined read/write stream and
the writer is present as well. -/
def wellFormedSourceRW (src : StreamObj × StreamObj × Bool) : Prop :=
  src.2.2 = true → src.1 ≠ .nil ∧ src.1.isReadWriter = true ∧ src.2.1 ≠ .nil

/-- The text `part` occurs in the text `msg` as a contiguous run of characters. -/
def occursIn (part msg : String) : Prop := part.data <:+: msg.data

/-- Modelled from the spec: the adapter `NewTTransportExceptionFromError`,
declared outside the given sources, "given a raw lower-level error, produces
the generic transport exception": on an error that is not nil its result is
not nil. -/
def Env.translatesErrors (env : Env) : Prop :=
  ∀ e : GoError, env.NewTTransportExceptionFromError (some e) ≠ none

/-- The aliasing invariant of the transport: if `IsReadWriter` is true then
`Reader` and `Writer` are the same object. -/
def rwInvariant (t : StreamTransport) : Prop :=
  t.IsReadWriter = true → t.Reader = t.Writer

/-- The closed set of reason codes. -/
def validTypeId (t : Int) : Prop :=
  t ∈ [UNKNOWN_PROTOCOL_EXCEPTION, INVALID_DATA, NEGATIVE_SIZE, SIZE_LIMIT, BAD_VERSION,
    NOT_IMPLEMENTED]

/-- The promotion of reason codes: `UNKNOWN_PROTOCOL_EXCEPTION` becomes
`INVALID_DATA`, every other code is kept. -/
def promote (t : Int) : Int :=
  if t = UNKNOWN_PROTOCOL_EXCEPTION then INVALID_DATA else t

/-- One application of a context constructor, with its context arguments. -/
inductive Wrap
  | readField (fieldId : Int) (fieldName structName : String)
  | writeField (fieldId : Int) (fieldName structName : String)
  | readStruct (structName : String)
  | writeStruct (structName : String)
deriving DecidableEq, Repr

/-- The call of the context constructor a `Wrap` stands for on an inner error. -/
def Wrap.apply (w : Wrap) (err : Option GoError) : Except Panic tProtocolException :=
  match w with
  | .readField fieldId fieldName structName =>
    NewTProtocolExceptionReadField fieldId fieldName structName err
  | .writeField fieldId fieldName structName =>
    NewTProtocolExceptionWriteField fieldId fieldName structName err
  | .readStruct structName => NewTProtocolExceptionReadStruct structName err
  | .writeStruct structName => NewTProtocolExceptionWriteStruct structName err

/-- The context constructors of a list applied one after the other, each to the
exception the previous one returned, starting from `e`. -/
def wrapAll : List Wrap → tProtocolException → Except Panic tProtocolException
  | [], e => .ok e
  | w :: ws, e =>
    match w.apply (some (GoError.protocol e)) with
    | .error p => .error p
    | .ok e1 => wrapAll ws e1

/-- The message the specification gives for a field constructor, with the field
index written as a decimal numeral; `verb` is `read` or `write`. -/
def decimalFieldMessage (verb : String) (fieldId : Int) (fieldName structName m : String) :
    String :=
  "Unable to " ++ verb ++ " field " ++ toString fieldId ++ " (" ++ fieldName ++ ") in "
    ++ structName ++ " due to: " ++ m

/-! ## Concrete objects used in the examples -/

/-- A caller-supplied stream with `Read`, `Write` and `Close`. -/
def closableRW : StreamObj := .ext 1 { reader := true, writer := true, closer := true, flusher := false }

/-- A caller-supplied closable input stream. -/
def closableR : StreamObj := .ext 2 { reader := true, writer := false, closer := true, flusher := false }

/-- A caller-supplied closable output stream. -/
def closableW : StreamObj := .ext 3 { reader := false, writer := true, closer := true, flusher := false }

/-- An environment in which every call succeeds. -/
def envOk : Env :=
  { closeResult := fun _ _ => none
    flushResult := fun _ _ => none
    readResult := fun _ _ buf => (buf, 0, none)
    writeResult := fun _ _ buf => (buf.length, none)
    NewTTransportExceptionFromError := fun _ => none }

/-- An environment in which closing the stream `closableR` fails and every
other call succeeds. -/
def envReaderFails : Env :=
  { envOk with
    closeResult := fun s _ => if s = closableR then some (GoError.other "reader close failed") else none }

/-- An environment in which closing the stream `closableW` fails and every
other call succeeds. -/
def envWriterFails : Env :=
  { envOk with
    closeResult := fun s _ => if s = closableW then some (GoError.other "writer close failed") else none }

/-- A caller-supplied output stream with `Flush` and without `Close`. -/
def flushableW : StreamObj := .ext 4 { reader := false, writer := true, closer := false, flusher := true }

/-- An environment in which flushing fails, every other call succeeds, and the
adapter turns an error into a transport exception carrying its text. -/
def envFlushFails : Env :=
  { envOk with
    flushResult := fun _ _ => some (GoError.other "flush failed")
    NewTTransportExceptionFromError := fun e =>
      e.map (fun err => { typeId := TransportReason.code 0, message := err.Error }) }

/-! ## Close -/

/-- C1 (evaluation at the failing input). For the closable combined stream
`closableRW`, one `Close` of the transport built by `NewStreamTransportRW`
returns no error and leaves both fields nil, but performs no call at all on any
object: the close operation of the underlying stream is invoked zero times, not
once. -/
theorem C1_close_rw_transport_does_not_close_stream (env : Env) (heap : Nat) :
    ((NewStreamTransportRW closableRW heap).1.Close env []).trace = [] ∧
    closeCalls closableRW ((NewStreamTransportRW closableRW heap).1.Close env []).trace = 0 ∧
    ((NewStreamTransportRW closableRW heap).1.Close env []).ret = none ∧
    ((NewStreamTransportRW closableRW heap).1.Close env []).p.Reader = .nil ∧
    ((NewStreamTransportRW closableRW heap).1.Close env []).p.Writer = .nil := by
  simp [NewStreamTransportRW, bufio.NewReader, bufio.NewWriter, bufio.NewReadWriter, closableRW,
    StreamTransport.Close, StreamTransport.closeWriter, StreamObj.isCloser, closeCalls]

/-- C2 (counterexample). The transport holds the two independent closable
streams `closableR` and `closableW`, `IsReadWriter` is false, and closing the
reader fails: `Close` returns that error, the writer's close operation is never
invoked, and neither field is cleared. -/
theorem C2_counterexample :
    let p : StreamTransport := { Reader := closableR, Writer := closableW, IsReadWriter := false }
    p.Reader ≠ .nil ∧ p.Writer ≠ .nil ∧ p.Reader.isCloser = true ∧ p.Writer.isCloser = true ∧
    p.Reader ≠ p.Writer ∧
    (p.Close envReaderFails []).ret = some (GoError.other "reader close failed") ∧
    closeCalls closableR (p.Close envReaderFails []).trace = 1 ∧
    closeCalls closableW (p.Close envReaderFails []).trace = 0 ∧
    (p.Close envReaderFails []).p.Reader ≠ .nil ∧
    (p.Close envReaderFails []).p.Writer ≠ .nil := by
  decide

/-- C2 (amended). For a transport with `IsReadWriter` false whose reader and
writer are both present and closable, `Close` invokes the reader's close
operation exactly once, first.  If that call fails, `Close` returns its error,
makes no further call and leaves both fields as they were.  If it succeeds,
the reader field is cleared and the writer's close operation is invoked exactly
once; if that call fails, `Close` returns its error and the writer field is
kept; if it succeeds too, `Close` returns no error and both fields are nil. -/
theorem C2_close_independent_streams (env : Env) (p : StreamTransport) (tr : List Event)
    (hflag : p.IsReadWriter = false) (hr : p.Reader ≠ .nil) (hw : p.Writer ≠ .nil)
    (hrc : p.Reader.isCloser = true) (hwc : p.Writer.isCloser = true) :
    (∀ e, env.closeResult p.Reader tr = some e →
      (p.Close env tr).ret = some e ∧
      (p.Close env tr).trace = tr ++ [Event.close p.Reader] ∧
      (p.Close env tr).p = p) ∧
    (env.closeResult p.Reader tr = none →
      (p.Close env tr).trace = tr ++ [Event.close p.Reader, Event.close p.Writer] ∧
      (p.Close env tr).p.Reader = .nil ∧
      (p.Close env tr).ret = env.closeResult p.Writer (tr ++ [Event.close p.Reader]) ∧
      (∀ e, env.closeResult p.Writer (tr ++ [Event.close p.Reader]) = some e →
        (p.Close env tr).p.Writer = p.Writer) ∧
      (env.closeResult p.Writer (tr ++ [Event.close p.Reader]) = none →
        (p.Close env tr).p.Writer = .nil)) := by
  constructor
  · intro e he
    simp [StreamTransport.Close, hr, hrc, he]
  · intro he
    cases hwres : env.closeResult p.Writer (tr ++ [Event.close p.Reader]) <;>
      simp [StreamTransport.Close, StreamTransport.closeWriter, hr, hrc, he, hw, hwc, hflag, hwres]

/-- Witness of `C2_close_independent_streams`: the independent closable pair
`closableR`, `closableW` in the environment where the writer fails to close. -/
theorem C2_close_independent_streams_witness :
    (∀ e, envWriterFails.closeResult closableR [] = some e →
      (StreamTransport.Close envWriterFails ⟨closableR, closableW, false⟩ []).ret = some e ∧
      (StreamTransport.Close envWriterFails ⟨closableR, closableW, false⟩ []).trace
        = [] ++ [Event.close closableR] ∧
      (StreamTransport.Close envWriterFails ⟨closableR, closableW, false⟩ []).p
        = ⟨closableR, closableW, false⟩) ∧
    (envWriterFails.closeResult closableR [] = none →
      (StreamTransport.Close envWriterFails ⟨closableR, closableW, false⟩ []).trace
        = [] ++ [Event.close closableR, Event.close closableW] ∧
      (StreamTransport.Close envWriterFails ⟨closableR, closableW, false⟩ []).p.Reader = .nil ∧
      (StreamTransport.Close envWriterFails ⟨closableR, closableW, false⟩ []).ret
        = envWriterFails.closeResult closableW ([] ++ [Event.close closableR]) ∧
      (∀ e, envWriterFails.closeResult closableW ([] ++ [Event.close closableR]) = some e →
        (StreamTransport.Close envWriterFails ⟨closableR, closableW, false⟩ []).p.Writer
          = closableW) ∧
      (envWriterFails.closeResult closableW ([] ++ [Event.close closableR]) = none →
        (StreamTransport.Close envWriterFails ⟨closableR, closableW, false⟩ []).p.Writer = .nil)) :=
  C2_close_independent_streams envWriterFails ⟨closableR, closableW, false⟩ []
    rfl (by decide) (by decide) (by decide) (by decide)

/-- C3. When the reader is present and closable and its close call returns the
error `e`, `Close` returns exactly `e`; the only call it makes is that one call
on the reader, so the writer's close operation is not invoked (when the writer
is another object than the reader, the number of close calls on it is
unchanged); and the transport, the writer field included, is left as it
was. -/
theorem C3_reader_close_error_returned_at_once (env : Env) (p : StreamTransport)
    (tr : List Event) (e : GoError)
    (hr : p.Reader ≠ .nil) (hrc : p.Reader.isCloser = true)
    (he : env.closeResult p.Reader tr = some e) :
    (p.Close env tr).ret = some e ∧
    (p.Close env tr).trace = tr ++ [Event.close p.Reader] ∧
    (p.Writer ≠ p.Reader →
      closeCalls p.Writer (p.Close env tr).trace = closeCalls p.Writer tr) ∧
    (p.Close env tr).p.Writer = p.Writer ∧
    (p.Close env tr).p = p := by
  have htrace : (p.Close env tr).trace = tr ++ [Event.close p.Reader] := by
    simp [StreamTransport.Close, hr, hrc, he]
  refine ⟨?_, htrace, ?_, ?_, ?_⟩
  · simp [StreamTransport.Close, hr, hrc, he]
  · intro hne
    have hne2 : p.Reader ≠ p.Writer := fun h => hne h.symm
    rw [htrace]
    simp [closeCalls, List.count_append, List.count_cons, hne2]
  · simp [StreamTransport.Close, hr, hrc, he]
  · simp [StreamTransport.Close, hr, hrc, he]

/-- Witness of `C3_reader_close_error_returned_at_once`: the pair `closableR`,
`closableW` in the environment where the reader fails to close. -/
theorem C3_reader_close_error_returned_at_once_witness :
    (StreamTransport.Close envReaderFails ⟨closableR, closableW, false⟩ []).ret
      = some (GoError.other "reader close failed") ∧
    (StreamTransport.Close envReaderFails ⟨closableR, closableW, false⟩ []).trace
      = [] ++ [Event.close closableR] ∧
    (closableW ≠ closableR →
      closeCalls closableW
        (StreamTransport.Close envReaderFails ⟨closableR, closableW, false⟩ []).trace
        = closeCalls closableW []) ∧
    (StreamTransport.Close envReaderFails ⟨closableR, closableW, false⟩ []).p.Writer = closableW ∧
    (StreamTransport.Close envReaderFails ⟨closableR, closableW, false⟩ []).p
      = ⟨closableR, closableW, false⟩ :=
  C3_reader_close_error_returned_at_once envReaderFails ⟨closableR, closableW, false⟩ []
    (GoError.other "reader close failed") (by decide) (by decide) (by decide)

/-- C4 (evaluation at the failing input). The transport holds the closable
combined stream `closableRW` in both fields with `IsReadWriter` true and every
close call succeeds.  The first `Close` closes the stream once and clears the
reader but keeps the writer; the second `Close` finds the writer still present
and closes the same stream again: two close calls on one object. -/
theorem C4_second_close_closes_combined_stream_again :
    let p : StreamTransport := { Reader := closableRW, Writer := closableRW, IsReadWriter := true }
    (p.Close envOk []).ret = none ∧
    (p.Close envOk []).p = { Reader := .nil, Writer := closableRW, IsReadWriter := true } ∧
    closeCalls closableRW (p.Close envOk []).trace = 1 ∧
    (StreamTransport.closeTimes envOk 2 p []).1 = { Reader := .nil, Writer := .nil, IsReadWriter := true } ∧
    (StreamTransport.closeTimes envOk 2 p []).2 = [Event.close closableRW, Event.close closableRW] ∧
    closeCalls closableRW (StreamTransport.closeTimes envOk 2 p []).2 = 2 := by
  decide

/-! ## Read, Write, Flush on an absent stream -/

/-- C5. With the reader absent, `Read` returns count 0 and a transport
exception of reason `NOT_OPEN`, makes no call on any object (the trace is
unchanged) and leaves the buffer and the transport as they were; with the
writer absent, `Write` returns count 0 and a `NOT_OPEN` exception and `Flush`
returns a `NOT_OPEN` exception, again without any call.  The other field and
the flag `IsReadWriter` are arbitrary. -/
theorem C5_absent_stream_gives_not_open (env : Env) (other : StreamObj) (flag : Bool)
    (tr : List Event) (buf : List Nat) :
    (StreamTransport.Read env ⟨.nil, other, flag⟩ tr buf).ret
      = (buf, 0, some ⟨TransportReason.NOT_OPEN, "Cannot read from null inputStream"⟩) ∧
    (StreamTransport.Read env ⟨.nil, other, flag⟩ tr buf).trace = tr ∧
    (StreamTransport.Read env ⟨.nil, other, flag⟩ tr buf).p = ⟨.nil, other, flag⟩ ∧
    (StreamTransport.Write env ⟨other, .nil, flag⟩ tr buf).ret
      = (0, some ⟨TransportReason.NOT_OPEN, "Cannot write to null outputStream"⟩) ∧
    (StreamTransport.Write env ⟨other, .nil, flag⟩ tr buf).trace = tr ∧
    (StreamTransport.Write env ⟨other, .nil, flag⟩ tr buf).p = ⟨other, .nil, flag⟩ ∧
    (StreamTransport.Flush env ⟨other, .nil, flag⟩ tr).ret
      = some ⟨TransportReason.NOT_OPEN, "Cannot flush null outputStream"⟩ ∧
    (StreamTransport.Flush env ⟨other, .nil, flag⟩ tr).trace = tr ∧
    (StreamTransport.Flush env ⟨other, .nil, flag⟩ tr).p = ⟨other, .nil, flag⟩ := by
  simp [StreamTransport.Read, StreamTransport.Write, StreamTransport.Flush, NewTTransportException]

/-! ## Protocol exceptions -/

/-- Every piece of a concatenation occurs in it: the left operand. -/
theorem occursIn_append_left (a b : String) : occursIn a (a ++ b) := by
  unfold occursIn
  rw [String.data_append]
  exact (List.prefix_append a.data b.data).isInfix

/-- Every piece of a concatenation occurs in it: the right operand. -/
theorem occursIn_append_right (a b : String) : occursIn b (a ++ b) := by
  unfold occursIn
  rw [String.data_append]
  exact (List.suffix_append a.data b.data).isInfix

/-- Occurrence is preserved by appending on the right. -/
theorem occursIn_append_of_left {x a : String} (b : String) (h : occursIn x a) :
    occursIn x (a ++ b) := by
  unfold occursIn at *
  rw [String.data_append]
  exact h.trans (List.prefix_append a.data b.data).isInfix

/-- Occurrence is preserved by appending on the left. -/
theorem occursIn_append_of_right {x b : String} (a : String) (h : occursIn x b) :
    occursIn x (a ++ b) := by
  unfold occursIn at *
  rw [String.data_append]
  exact h.trans (List.suffix_append a.data b.data).isInfix

/-- C6. Wrapping a protocol exception of reason `UNKNOWN_PROTOCOL_EXCEPTION`
(0) with message `m`: each of the four context constructors returns an
exception of reason `INVALID_DATA` (1) whose message contains the struct name,
the inner message `m` and, for the two field constructors, the field name. -/
theorem C6_unknown_promoted_and_context_added (fieldId : Int)
    (fieldName structName m : String) :
    (∃ r, NewTProtocolExceptionReadField fieldId fieldName structName
          (some (.protocol ⟨UNKNOWN_PROTOCOL_EXCEPTION, m⟩)) = .ok r ∧
        r.TypeId = INVALID_DATA ∧ occursIn structName r.Error ∧
        occursIn fieldName r.Error ∧ occursIn m r.Error) ∧
    (∃ r, NewTProtocolExceptionWriteField fieldId fieldName structName
          (some (.protocol ⟨UNKNOWN_PROTOCOL_EXCEPTION, m⟩)) = .ok r ∧
        r.TypeId = INVALID_DATA ∧ occursIn structName r.Error ∧
        occursIn fieldName r.Error ∧ occursIn m r.Error) ∧
    (∃ r, NewTProtocolExceptionReadStruct structName
          (some (.protocol ⟨UNKNOWN_PROTOCOL_EXCEPTION, m⟩)) = .ok r ∧
        r.TypeId = INVALID_DATA ∧ occursIn structName r.Error ∧ occursIn m r.Error) ∧
    (∃ r, NewTProtocolExceptionWriteStruct structName
          (some (.protocol ⟨UNKNOWN_PROTOCOL_EXCEPTION, m⟩)) = .ok r ∧
        r.TypeId = INVALID_DATA ∧ occursIn structName r.Error ∧ occursIn m r.Error) := by
  refine ⟨⟨_, rfl, rfl, ?_, ?_, ?_⟩, ⟨_, rfl, rfl, ?_, ?_, ?_⟩, ⟨_, rfl, rfl, ?_, ?_⟩,
    ⟨_, rfl, rfl, ?_, ?_⟩⟩
  · exact occursIn_append_of_left _ (occursIn_append_of_left _ (occursIn_append_right _ _))
  · exact occursIn_append_of_left _ (occursIn_append_of_left _ (occursIn_append_of_left _
      (occursIn_append_of_left _ (occursIn_append_right _ _))))
  · exact occursIn_append_right _ _
  · exact occursIn_append_of_left _ (occursIn_append_of_left _ (occursIn_append_right _ _))
  · exact occursIn_append_of_left _ (occursIn_append_of_left _ (occursIn_append_of_left _
      (occursIn_append_of_left _ (occursIn_append_right _ _))))
  · exact occursIn_append_right _ _
  · exact occursIn_append_of_left _ (occursIn_append_of_left _ (occursIn_append_right _ _))
  · exact occursIn_append_right _ _
  · exact occursIn_append_of_left _ (occursIn_append_of_left _ (occursIn_append_right _ _))
  · exact occursIn_append_right _ _

/-- C7. Wrapping a protocol exception whose reason `t` is not
`UNKNOWN_PROTOCOL_EXCEPTION`: each of the four context constructors returns an
exception whose reason is exactly `t`. -/
theorem C7_known_reason_preserved (t : Int) (fieldId : Int) (fieldName structName m : String)
    (ht : t ≠ UNKNOWN_PROTOCOL_EXCEPTION) :
    (∃ r, NewTProtocolExceptionReadField fieldId fieldName structName
          (some (.protocol ⟨t, m⟩)) = .ok r ∧ r.TypeId = t) ∧
    (∃ r, NewTProtocolExceptionWriteField fieldId fieldName structName
          (some (.protocol ⟨t, m⟩)) = .ok r ∧ r.TypeId = t) ∧
    (∃ r, NewTProtocolExceptionReadStruct structName
          (some (.protocol ⟨t, m⟩)) = .ok r ∧ r.TypeId = t) ∧
    (∃ r, NewTProtocolExceptionWriteStruct structName
          (some (.protocol ⟨t, m⟩)) = .ok r ∧ r.TypeId = t) := by
  have hp : promoteTypeId ⟨t, m⟩ = t := by
    simp [promoteTypeId, tProtocolException.TypeId, ht]
  refine ⟨⟨_, rfl, ?_⟩, ⟨_, rfl, ?_⟩, ⟨_, rfl, ?_⟩, ⟨_, rfl, ?_⟩⟩ <;>
    simpa [NewTProtocolException, tProtocolException.TypeId] using hp

/-- Witness of `C7_known_reason_preserved`: an inner exception of reason
`SIZE_LIMIT`. -/
theorem C7_known_reason_preserved_witness :
    SIZE_LIMIT ≠ UNKNOWN_PROTOCOL_EXCEPTION ∧
    ((∃ r, NewTProtocolExceptionReadField 1 "id" "Point"
          (some (.protocol ⟨SIZE_LIMIT, "too big"⟩)) = .ok r ∧ r.TypeId = SIZE_LIMIT) ∧
    (∃ r, NewTProtocolExceptionWriteField 1 "id" "Point"
          (some (.protocol ⟨SIZE_LIMIT, "too big"⟩)) = .ok r ∧ r.TypeId = SIZE_LIMIT) ∧
    (∃ r, NewTProtocolExceptionReadStruct "Point"
          (some (.protocol ⟨SIZE_LIMIT, "too big"⟩)) = .ok r ∧ r.TypeId = SIZE_LIMIT) ∧
    (∃ r, NewTProtocolExceptionWriteStruct "Point"
          (some (.protocol ⟨SIZE_LIMIT, "too big"⟩)) = .ok r ∧ r.TypeId = SIZE_LIMIT)) :=
  ⟨by decide, C7_known_reason_preserved SIZE_LIMIT 1 "id" "Point" "too big" (by decide)⟩

/-- C8. The adapter `newTProtocolExceptionFromError` by cases on its input: nil
gives nil; a protocol exception is returned as it is; a
`base64.CorruptInputError` gives reason `INVALID_DATA` with the message
`e.Error()`; any other error gives reason `UNKNOWN_PROTOCOL_EXCEPTION` with the
message `e.Error()`. -/
theorem C8_from_error_four_cases :
    newTProtocolExceptionFromError none = none ∧
    (∀ pe : tProtocolException,
      newTProtocolExceptionFromError (some (.protocol pe)) = some pe) ∧
    (∀ offset : Int,
      newTProtocolExceptionFromError (some (.corruptInput offset))
        = some ⟨INVALID_DATA, (GoError.corruptInput offset).Error⟩) ∧
    (∀ msg : String,
      newTProtocolExceptionFromError (some (.other msg))
        = some ⟨UNKNOWN_PROTOCOL_EXCEPTION, (GoError.other msg).Error⟩ ∧
      (GoError.other msg).Error = msg) := by
  refine ⟨rfl, fun _ => rfl, fun _ => rfl, fun _ => ⟨rfl, rfl⟩⟩

/-- C9. Each of the four context constructors panics on the type assertion
exactly when the inner error is not a protocol exception (the nil error
included), and returns a value exactly when it is one. -/
theorem C9_panics_iff_not_protocol_exception (fieldId : Int) (fieldName structName : String)
    (err : Option GoError) :
    ((NewTProtocolExceptionReadField fieldId fieldName structName err
        = .error Panic.typeAssertion ↔ ¬ ∃ pe, err = some (.protocol pe)) ∧
      ((∃ r, NewTProtocolExceptionReadField fieldId fieldName structName err = .ok r)
        ↔ ∃ pe, err = some (.protocol pe))) ∧
    ((NewTProtocolExceptionWriteField fieldId fieldName structName err
        = .error Panic.typeAssertion ↔ ¬ ∃ pe, err = some (.protocol pe)) ∧
      ((∃ r, NewTProtocolExceptionWriteField fieldId fieldName structName err = .ok r)
        ↔ ∃ pe, err = some (.protocol pe))) ∧
    ((NewTProtocolExceptionReadStruct structName err
        = .error Panic.typeAssertion ↔ ¬ ∃ pe, err = some (.protocol pe)) ∧
      ((∃ r, NewTProtocolExceptionReadStruct structName err = .ok r)
        ↔ ∃ pe, err = some (.protocol pe))) ∧
    ((NewTProtocolExceptionWriteStruct structName err
        = .error Panic.typeAssertion ↔ ¬ ∃ pe, err = some (.protocol pe)) ∧
      ((∃ r, NewTProtocolExceptionWriteStruct structName err = .ok r)
        ↔ ∃ pe, err = some (.protocol pe))) := by
  rcases err with _ | (pe | offset | msg) <;>
    simp [NewTProtocolExceptionReadField, NewTProtocolExceptionWriteField,
      NewTProtocolExceptionReadStruct, NewTProtocolExceptionWriteStruct,
      assertTProtocolException]

/-! ## GetTransport -/

/-- The reader `bufio.NewReader` returns is never nil. -/
theorem bufio_NewReader_present (rd : StreamObj) (heap : Nat) :
    (bufio.NewReader rd heap).1.present = true := by
  cases rd <;> simp only [bufio.NewReader] <;> (try split_ifs) <;> rfl

/-- The writer `bufio.NewWriter` returns is never nil. -/
theorem bufio_NewWriter_present (w : StreamObj) (heap : Nat) :
    (bufio.NewWriter w heap).1.present = true := by
  cases w <;> simp only [bufio.NewWriter] <;> (try split_ifs) <;> rfl

/-- Presence of a value that is not nil. -/
theorem present_of_ne_nil {x : StreamObj} (h : x ≠ .nil) : x.present = true := by
  cases x <;> simp_all [StreamObj.present]

/-- Absence of the nil value. -/
theorem present_nil : StreamObj.nil.present = false := rfl

/-- Shape of the transport each constructor returns. -/
theorem constructors_shape (r w : StreamObj) (heap : Nat) :
    (NewStreamTransport r w heap).1.shape = (true, true, false) ∧
    (NewStreamTransportR r heap).1.shape = (true, false, false) ∧
    (NewStreamTransportW w heap).1.shape = (false, true, false) ∧
    (NewStreamTransportRW r heap).1.shape = (true, true, true) := by
  refine ⟨?_, ?_, ?_, ?_⟩
  · simp [NewStreamTransport, StreamTransport.shape, shapeOf, bufio_NewReader_present,
      bufio_NewWriter_present]
  · simp [NewStreamTransportR, StreamTransport.shape, shapeOf, bufio_NewReader_present,
      present_nil]
  · simp [NewStreamTransportW, StreamTransport.shape, shapeOf, bufio_NewWriter_present,
      present_nil]
  · simp [NewStreamTransportRW, StreamTransport.shape, shapeOf, bufio.NewReadWriter,
      StreamObj.present]

/-- The variant selection of `GetTransport`, common to its two paths, on a
source that is well formed in the strengthened sense: the result has the shape
of the source. -/
theorem select_shape (rd wr : StreamObj) (flag : Bool) (heap : Nat)
    (hwf : wellFormedSourceRW (rd, wr, flag)) :
    ∃ r h,
      (if flag then
        match assertReadWriter rd with
        | .error e => .error e
        | .ok rw => .ok (NewStreamTransportRW rw heap)
      else if rd ≠ .nil ∧ wr ≠ .nil then .ok (NewStreamTransport rd wr heap)
      else if rd ≠ .nil ∧ wr = .nil then .ok (NewStreamTransportR rd heap)
      else if rd = .nil ∧ wr ≠ .nil then .ok (NewStreamTransportW wr heap)
      else .ok (StreamTransport.empty, heap) : Except Panic (StreamTransport × Nat))
        = .ok (r, h) ∧
      r.shape = shapeOf rd wr flag := by
  cases flag with
  | true =>
    obtain ⟨hr, hrw, hw⟩ := hwf rfl
    refine ⟨(NewStreamTransportRW rd heap).1, (NewStreamTransportRW rd heap).2, ?_, ?_⟩
    · simp [assertReadWriter, hrw]
    · rw [(constructors_shape rd wr heap).2.2.2]
      simp [shapeOf, present_of_ne_nil hr, present_of_ne_nil hw]
  | false =>
    by_cases hr : rd = .nil <;> by_cases hw : wr = .nil
    · refine ⟨StreamTransport.empty, heap, ?_, ?_⟩
      · simp [hr, hw]
      · simp [hr, hw, StreamTransport.shape, StreamTransport.empty, shapeOf, present_nil]
    · refine ⟨(NewStreamTransportW wr heap).1, (NewStreamTransportW wr heap).2, ?_, ?_⟩
      · simp [hr, hw]
      · rw [(constructors_shape rd wr heap).2.2.1]
        simp [shapeOf, hr, present_nil, present_of_ne_nil hw]
    · refine ⟨(NewStreamTransportR rd heap).1, (NewStreamTransportR rd heap).2, ?_, ?_⟩
      · simp [hr, hw]
      · rw [(constructors_shape rd wr heap).2.1]
        simp [shapeOf, hw, present_nil, present_of_ne_nil hr]
    · refine ⟨(NewStreamTransport rd wr heap).1, (NewStreamTransport rd wr heap).2, ?_, ?_⟩
      · simp [hr, hw]
      · rw [(constructors_shape rd wr heap).1]
        simp [shapeOf, present_of_ne_nil hr, present_of_ne_nil hw]

/-- C10 (counterexample). A factory holding the combined stream `closableRW`
as reader, no writer, and `IsReadWriter` true is well formed as the
specification words it, yet `GetTransport` with no existing transport returns a transport with
both reader and writer present, a shape different from the factory's; the same
holds for an existing transport with these fields. -/
theorem C10_counterexample :
    wellFormedSource (configSource ⟨closableRW, .nil, true⟩ TTransport.nil) ∧
    wellFormedSource (configSource ⟨.nil, .nil, false⟩
      (TTransport.streamTransport ⟨closableRW, .nil, true⟩)) ∧
    StreamTransportFactory.shape ⟨closableRW, .nil, true⟩ = (true, false, true) ∧
    StreamTransport.shape ⟨closableRW, .nil, true⟩ = (true, false, true) ∧
    (StreamTransportFactory.GetTransport ⟨closableRW, .nil, true⟩ TTransport.nil 0).map
      (fun r => r.1.shape) = .ok (true, true, true) ∧
    (StreamTransportFactory.GetTransport ⟨.nil, .nil, false⟩
      (TTransport.streamTransport ⟨closableRW, .nil, true⟩) 0).map
      (fun r => r.1.shape) = .ok (true, true, true) := by
  refine ⟨?_, ?_, rfl, rfl, rfl, rfl⟩
  · intro _; exact ⟨by decide, rfl⟩
  · intro _; exact ⟨by decide, rfl⟩

/-- On a source that is well formed in the strengthened sense, `GetTransport`
returns normally a transport whose shape equals that of the source: of the
existing transport when it is a `*StreamTransport`, of the factory when the
existing transport is nil or of another kind. -/
theorem getTransport_replicates_source_shape (p : StreamTransportFactory)
    (trans : TTransport) (heap : Nat)
    (hwf : wellFormedSourceRW (configSource p trans)) :
    ∃ r h, p.GetTransport trans heap = .ok (r, h) ∧
      r.shape = shapeOf (configSource p trans).1 (configSource p trans).2.1
        (configSource p trans).2.2 := by
  cases trans with
  | nil => exact select_shape p.Reader p.Writer p.IsReadWriter heap hwf
  | streamTransport t => exact select_shape t.Reader t.Writer t.IsReadWriter heap hwf
  | other k => exact select_shape p.Reader p.Writer p.IsReadWriter heap hwf

/-- The counter only grows in `bufio.NewReader`. -/
theorem bufio_NewReader_heap_le (rd : StreamObj) (heap : Nat) :
    heap ≤ (bufio.NewReader rd heap).2 := by
  cases rd <;> simp only [bufio.NewReader] <;> (try split_ifs) <;> simp

/-- The counter only grows in `bufio.NewWriter`. -/
theorem bufio_NewWriter_heap_le (w : StreamObj) (heap : Nat) :
    heap ≤ (bufio.NewWriter w heap).2 := by
  cases w <;> simp only [bufio.NewWriter] <;> (try split_ifs) <;> simp

/-- Each constructor with addresses stores the struct the plain constructor
computes at the address the plain constructor leaves as next free one, which
is not below the counter it started from. -/
theorem constructors_ptr (r w : StreamObj) (heap : Nat) :
    (NewStreamTransportPtr r w heap
        = (⟨(NewStreamTransport r w heap).2, (NewStreamTransport r w heap).1⟩,
            (NewStreamTransport r w heap).2 + 1) ∧
      heap ≤ (NewStreamTransport r w heap).2) ∧
    (NewStreamTransportRPtr r heap
        = (⟨(NewStreamTransportR r heap).2, (NewStreamTransportR r heap).1⟩,
            (NewStreamTransportR r heap).2 + 1) ∧
      heap ≤ (NewStreamTransportR r heap).2) ∧
    (NewStreamTransportWPtr w heap
        = (⟨(NewStreamTransportW w heap).2, (NewStreamTransportW w heap).1⟩,
            (NewStreamTransportW w heap).2 + 1) ∧
      heap ≤ (NewStreamTransportW w heap).2) ∧
    (NewStreamTransportRWPtr r heap
        = (⟨(NewStreamTransportRW r heap).2, (NewStreamTransportRW r heap).1⟩,
            (NewStreamTransportRW r heap).2 + 1) ∧
      heap ≤ (NewStreamTransportRW r heap).2) := by
  have h1 := bufio_NewReader_heap_le r heap
  have h2 := bufio_NewWriter_heap_le w (bufio.NewReader r heap).2
  have h3 := bufio_NewWriter_heap_le w heap
  have h4 := bufio_NewWriter_heap_le r (bufio.NewReader r heap).2
  refine ⟨⟨rfl, ?_⟩, ⟨rfl, ?_⟩, ⟨rfl, ?_⟩, ⟨rfl, ?_⟩⟩
  · simp only [NewStreamTransport]; omega
  · simp only [NewStreamTransportR]; omega
  · simp only [NewStreamTransportW]; omega
  · simp only [NewStreamTransportRW, bufio.NewReadWriter]; omega

/-- The variant selection with addresses, common to the two paths of
`GetTransportPtr`: whenever the plain selection returns the struct `r` and the
counter `h`, the selection with addresses returns the pointer to `r` stored at
`h`, and `h` is not below the counter the call started from. -/
theorem select_ptr (rd wr : StreamObj) (flag : Bool) (heap : Nat) (r : StreamTransport)
    (h : Nat)
    (hok : (if flag then
        match assertReadWriter rd with
        | .error e => .error e
        | .ok rw => .ok (NewStreamTransportRW rw heap)
      else if rd ≠ .nil ∧ wr ≠ .nil then .ok (NewStreamTransport rd wr heap)
      else if rd ≠ .nil ∧ wr = .nil then .ok (NewStreamTransportR rd heap)
      else if rd = .nil ∧ wr ≠ .nil then .ok (NewStreamTransportW wr heap)
      else .ok (StreamTransport.empty, heap) : Except Panic (StreamTransport × Nat))
        = .ok (r, h)) :
    (if flag then
        match assertReadWriter rd with
        | .error e => .error e
        | .ok rw => .ok (NewStreamTransportRWPtr rw heap)
      else if rd ≠ .nil ∧ wr ≠ .nil then .ok (NewStreamTransportPtr rd wr heap)
      else if rd ≠ .nil ∧ wr = .nil then .ok (NewStreamTransportRPtr rd heap)
      else if rd = .nil ∧ wr ≠ .nil then .ok (NewStreamTransportWPtr wr heap)
      else .ok (allocStreamTransport StreamTransport.empty heap) :
        Except Panic (StreamTransportPtr × Nat))
        = .ok (⟨h, r⟩, h + 1) ∧ heap ≤ h := by
  have hc := constructors_ptr
  cases flag with
  | true =>
    by_cases hrw : rd.isReadWriter = true
    · simp [assertReadWriter, hrw] at hok
      simp only [assertReadWriter, hrw, if_true]
      rw [((hc rd wr heap).2.2.2).1, hok]
      refine ⟨rfl, ?_⟩
      have := ((hc rd wr heap).2.2.2).2
      rw [hok] at this
      exact this
    · simp [assertReadWriter, hrw] at hok
  | false =>
    by_cases hr : rd = .nil <;> by_cases hw : wr = .nil <;> simp [hr, hw] at hok
    · simp [hr, hw, allocStreamTransport, hok.1.symm, hok.2.symm]
    · have hh := (hc rd wr heap).2.2.1
      rw [hok] at hh
      simp [hr, hw, hh.1, hh.2]
    · have hh := (hc rd wr heap).2.1
      rw [hok] at hh
      simp [hr, hw, hh.1, hh.2]
    · have hh := (hc rd wr heap).1
      rw [hok] at hh
      simp [hr, hw, hh.1, hh.2]

/-- `GetTransportPtr` agrees with `GetTransport`: when the latter returns the
struct `r` and the counter `h`, the former returns the pointer to `r` stored
at the address `h`, which is not below the counter the call started from. -/
theorem getTransportPtr_of_getTransport (p : StreamTransportFactory) (trans : TTransportPtr)
    (heap : Nat) (r : StreamTransport) (h : Nat)
    (hok : p.GetTransport trans.erase heap = .ok (r, h)) :
    p.GetTransportPtr trans heap = .ok (⟨h, r⟩, h + 1) ∧ heap ≤ h := by
  cases trans with
  | nil => exact select_ptr p.Reader p.Writer p.IsReadWriter heap r h hok
  | streamTransport ptr =>
    exact select_ptr ptr.val.Reader ptr.val.Writer ptr.val.IsReadWriter heap r h hok
  | other k => exact select_ptr p.Reader p.Writer p.IsReadWriter heap r h hok

/-- C10 (amended). When the selected configuration source is well formed in
the strengthened sense (`IsReadWriter` true only when the reader is a present
combined read/write stream and the writer is present too), `GetTransport`
returns normally a fresh transport: a pointer to a struct allocated by this
call, at an address not below the counter the call started from, hence
different from the pointer to any struct allocated before, the existing
transport included.  Its shape equals that of the source: of the existing
transport when that is a `*StreamTransport`, and then the result does not
depend on the factory at all; of the factory when the existing transport is
nil or of another kind.  The struct is the one `GetTransport` computes. -/
theorem C10_get_transport_fresh_with_source_shape (p : StreamTransportFactory)
    (trans : TTransportPtr) (heap : Nat)
    (hwf : wellFormedSourceRW (configSource p trans.erase)) :
    ∃ q h, p.GetTransportPtr trans heap = .ok (q, h) ∧
      heap ≤ q.addr ∧ h = q.addr + 1 ∧
      (∀ ptr, trans = .streamTransport ptr → ptr.addr < heap →
        q.addr ≠ ptr.addr ∧ q ≠ ptr) ∧
      p.GetTransport trans.erase heap = .ok (q.val, q.addr) ∧
      q.val.shape = shapeOf (configSource p trans.erase).1 (configSource p trans.erase).2.1
        (configSource p trans.erase).2.2 ∧
      (∀ ptr, trans = .streamTransport ptr →
        q.val.shape = ptr.val.shape ∧
        ∀ f : StreamTransportFactory,
          f.GetTransportPtr trans heap = p.GetTransportPtr trans heap) ∧
      ((trans = .nil ∨ ∃ k, trans = .other k) → q.val.shape = p.shape) := by
  obtain ⟨r, h0, hok, hshape⟩ := getTransport_replicates_source_shape p trans.erase heap hwf
  obtain ⟨hptr, hle⟩ := getTransportPtr_of_getTransport p trans heap r h0 hok
  refine ⟨⟨h0, r⟩, h0 + 1, hptr, hle, rfl, ?_, hok, hshape, ?_, ?_⟩
  · intro ptr _ hlt
    have hne : h0 ≠ ptr.addr := by omega
    exact ⟨hne, fun heq => hne (by rw [← heq])⟩
  · intro ptr hp
    subst hp
    exact ⟨hshape, fun f => rfl⟩
  · rintro (hp | ⟨k, hp⟩) <;> subst hp <;> exact hshape

/-- Witness of `C10_get_transport_fresh_with_source_shape`: an existing
transport over the combined stream `closableRW`, stored at address 5, and a
read-only factory, with 9 the next free address. -/
theorem C10_get_transport_fresh_with_source_shape_witness :
    wellFormedSourceRW (configSource ⟨closableR, .nil, false⟩
      (TTransportPtr.streamTransport ⟨5, ⟨closableRW, closableRW, true⟩⟩).erase) ∧
    ∃ q h, StreamTransportFactory.GetTransportPtr ⟨closableR, .nil, false⟩
        (.streamTransport ⟨5, ⟨closableRW, closableRW, true⟩⟩) 9 = .ok (q, h) ∧
      9 ≤ q.addr ∧ h = q.addr + 1 ∧
      (∀ ptr, TTransportPtr.streamTransport ⟨5, ⟨closableRW, closableRW, true⟩⟩
          = .streamTransport ptr → ptr.addr < 9 → q.addr ≠ ptr.addr ∧ q ≠ ptr) ∧
      StreamTransportFactory.GetTransport ⟨closableR, .nil, false⟩
        (TTransportPtr.streamTransport ⟨5, ⟨closableRW, closableRW, true⟩⟩).erase 9
        = .ok (q.val, q.addr) ∧
      q.val.shape = shapeOf
        (configSource ⟨closableR, .nil, false⟩
          (TTransportPtr.streamTransport ⟨5, ⟨closableRW, closableRW, true⟩⟩).erase).1
        (configSource ⟨closableR, .nil, false⟩
          (TTransportPtr.streamTransport ⟨5, ⟨closableRW, closableRW, true⟩⟩).erase).2.1
        (configSource ⟨closableR, .nil, false⟩
          (TTransportPtr.streamTransport ⟨5, ⟨closableRW, closableRW, true⟩⟩).erase).2.2 ∧
      (∀ ptr, TTransportPtr.streamTransport ⟨5, ⟨closableRW, closableRW, true⟩⟩
          = .streamTransport ptr →
        q.val.shape = ptr.val.shape ∧
        ∀ f : StreamTransportFactory,
          f.GetTransportPtr (.streamTransport ⟨5, ⟨closableRW, closableRW, true⟩⟩) 9
            = StreamTransportFactory.GetTransportPtr ⟨closableR, .nil, false⟩
                (.streamTransport ⟨5, ⟨closableRW, closableRW, true⟩⟩) 9) ∧
      ((TTransportPtr.streamTransport ⟨5, ⟨closableRW, closableRW, true⟩⟩ = .nil ∨
          ∃ k, TTransportPtr.streamTransport ⟨5, ⟨closableRW, closableRW, true⟩⟩ = .other k) →
        q.val.shape = StreamTransportFactory.shape ⟨closableR, .nil, false⟩) :=
  ⟨fun _ => ⟨by decide, rfl, by decide⟩,
    C10_get_transport_fresh_with_source_shape ⟨closableR, .nil, false⟩
      (.streamTransport ⟨5, ⟨closableRW, closableRW, true⟩⟩) 9
      (fun _ => ⟨by decide, rfl, by decide⟩)⟩

/-! ## Factories, degenerate sources, IsOpen and Peek -/

/-- A present value is not nil. -/
theorem ne_nil_of_present {x : StreamObj} (h : x.present = true) : x ≠ .nil := by
  intro hx
  subst hx
  simp [StreamObj.present] at h

/-- C11. A factory built with a reader only, asked for a transport with no
existing transport, returns one with the reader present and the writer absent,
whose `Write` returns count 0 and a `NOT_OPEN` exception; a factory built with
neither reader nor writer returns the empty transport, whose `Read` and `Write`
both return a `NOT_OPEN` exception. -/
theorem C11_factory_reader_only_and_empty (r : StreamObj) (heap : Nat) (env : Env)
    (tr : List Event) (buf : List Nat) (hr : r ≠ .nil) :
    (∃ t h, (NewStreamTransportFactory r .nil false).GetTransport .nil heap = .ok (t, h) ∧
      t.Reader ≠ .nil ∧ t.Writer = .nil ∧
      (t.Write env tr buf).ret
        = (0, some ⟨TransportReason.NOT_OPEN, "Cannot write to null outputStream"⟩)) ∧
    (∃ t h, (NewStreamTransportFactory .nil .nil false).GetTransport .nil heap = .ok (t, h) ∧
      t.Reader = .nil ∧ t.Writer = .nil ∧
      (t.Read env tr buf).ret
        = (buf, 0, some ⟨TransportReason.NOT_OPEN, "Cannot read from null inputStream"⟩) ∧
      (t.Write env tr buf).ret
        = (0, some ⟨TransportReason.NOT_OPEN, "Cannot write to null outputStream"⟩)) := by
  constructor
  · refine ⟨(NewStreamTransportR r heap).1, (NewStreamTransportR r heap).2, ?_, ?_, ?_, ?_⟩
    · simp [StreamTransportFactory.GetTransport, NewStreamTransportFactory, hr]
    · exact ne_nil_of_present (by simp [NewStreamTransportR, bufio_NewReader_present])
    · simp [NewStreamTransportR]
    · simp [NewStreamTransportR, StreamTransport.Write, NewTTransportException]
  · refine ⟨StreamTransport.empty, heap, ?_, rfl, rfl, ?_, ?_⟩
    · simp [StreamTransportFactory.GetTransport, NewStreamTransportFactory]
    · simp [StreamTransport.empty, StreamTransport.Read, NewTTransportException]
    · simp [StreamTransport.empty, StreamTransport.Write, NewTTransportException]

/-- Witness of `C11_factory_reader_only_and_empty`: the reader `closableR`. -/
theorem C11_factory_reader_only_and_empty_witness :
    closableR ≠ StreamObj.nil ∧
    ((∃ t h, (NewStreamTransportFactory closableR .nil false).GetTransport .nil 0 = .ok (t, h) ∧
      t.Reader ≠ .nil ∧ t.Writer = .nil ∧
      (t.Write envOk [] [1, 2]).ret
        = (0, some ⟨TransportReason.NOT_OPEN, "Cannot write to null outputStream"⟩)) ∧
    (∃ t h, (NewStreamTransportFactory .nil .nil false).GetTransport .nil 0 = .ok (t, h) ∧
      t.Reader = .nil ∧ t.Writer = .nil ∧
      (t.Read envOk [] [1, 2]).ret
        = ([1, 2], 0, some ⟨TransportReason.NOT_OPEN, "Cannot read from null inputStream"⟩) ∧
      (t.Write envOk [] [1, 2]).ret
        = (0, some ⟨TransportReason.NOT_OPEN, "Cannot write to null outputStream"⟩))) :=
  ⟨by decide, C11_factory_reader_only_and_empty closableR 0 envOk [] [1, 2] (by decide)⟩

/-- C12 (evaluation at the failing input). The transport that
`NewStreamTransportRW` built over `closableRW` has, after one `Close`, neither
reader nor writer while its flag `IsReadWriter` is still true; handed to
`GetTransport` as the existing transport it makes the type assertion
`Reader.(io.ReadWriter)` panic, and so does a factory with these fields called
with no existing transport: no empty transport is returned.  The same empty
source with the flag false does get the empty transport. -/
theorem C12_get_transport_panics_on_closed_rw_transport :
    ((NewStreamTransportRW closableRW 0).1.Close envOk []).ret = none ∧
    ((NewStreamTransportRW closableRW 0).1.Close envOk []).p = ⟨.nil, .nil, true⟩ ∧
    StreamTransportFactory.GetTransport ⟨.nil, .nil, false⟩
      (TTransport.streamTransport ((NewStreamTransportRW closableRW 0).1.Close envOk []).p) 3
      = .error Panic.typeAssertion ∧
    StreamTransportFactory.GetTransport ⟨.nil, .nil, true⟩ TTransport.nil 0
      = .error Panic.typeAssertion ∧
    StreamTransportFactory.GetTransport ⟨.nil, .nil, false⟩
      (TTransport.streamTransport ⟨.nil, .nil, false⟩) 3 = .ok (StreamTransport.empty, 3) ∧
    StreamTransportFactory.GetTransport ⟨.nil, .nil, false⟩ TTransport.nil 0
      = .ok (StreamTransport.empty, 0) :=
  ⟨rfl, rfl, rfl, rfl, rfl, rfl⟩

/-- `GetTransport` on a configuration source with neither reader nor writer,
by the flag `IsReadWriter` of the source: with the flag false the last return
is reached and gives the empty transport, without allocating a wrapper; with
the flag true the first branch is taken and its type assertion fails. -/
theorem getTransport_on_empty_source (p : StreamTransportFactory) (trans : TTransport)
    (heap : Nat)
    (hr : (configSource p trans).1 = .nil) (hw : (configSource p trans).2.1 = .nil) :
    ((configSource p trans).2.2 = false →
      p.GetTransport trans heap = .ok (StreamTransport.empty, heap) ∧
      StreamTransport.empty.shape = (false, false, false)) ∧
    ((configSource p trans).2.2 = true →
      p.GetTransport trans heap = .error Panic.typeAssertion) := by
  cases trans with
  | nil =>
    simp only [configSource] at hr hw ⊢
    constructor <;> intro hf <;>
      simp [StreamTransportFactory.GetTransport, hr, hw, hf, assertReadWriter,
        StreamObj.isReadWriter, StreamTransport.shape, StreamTransport.empty, shapeOf,
        StreamObj.present]
  | streamTransport t =>
    simp only [configSource] at hr hw ⊢
    constructor <;> intro hf <;>
      simp [StreamTransportFactory.GetTransport, hr, hw, hf, assertReadWriter,
        StreamObj.isReadWriter, StreamTransport.shape, StreamTransport.empty, shapeOf,
        StreamObj.present]
  | other k =>
    simp only [configSource] at hr hw ⊢
    constructor <;> intro hf <;>
      simp [StreamTransportFactory.GetTransport, hr, hw, hf, assertReadWriter,
        StreamObj.isReadWriter, StreamTransport.shape, StreamTransport.empty, shapeOf,
        StreamObj.present]

/-- C13. `IsOpen` returns true in every state of the transport, in particular
for the result of each of the four constructors, for the empty transport and
for the transport any `Close` leaves; `Peek` returns what `IsOpen` returns.
Both methods contain no assignment and no call on a stream: they are functions
of the transport alone, which they leave as it is. -/
theorem C13_is_open_always_true (p : StreamTransport) (r w : StreamObj) (heap : Nat)
    (env : Env) (tr : List Event) :
    p.IsOpen = true ∧ p.Peek = p.IsOpen ∧
    (NewStreamTransport r w heap).1.IsOpen = true ∧
    (NewStreamTransportR r heap).1.IsOpen = true ∧
    (NewStreamTransportW w heap).1.IsOpen = true ∧
    (NewStreamTransportRW r heap).1.IsOpen = true ∧
    StreamTransport.empty.IsOpen = true ∧
    (p.Close env tr).p.IsOpen = true ∧
    (p.Close env tr).p.Peek = true :=
  ⟨rfl, rfl, rfl, rfl, rfl, rfl, rfl, rfl, rfl⟩

/-! ## Flush with a writer, constructor shapes, the aliasing invariant -/

/-- C14. With the writer present: when it has no flush capability `Flush`
returns no error, makes no call and leaves the transport as it is; when it has
one, `Flush` invokes it exactly once, leaves the transport as it is, and
returns an error exactly when the flush call returned one (the adapter
`NewTTransportExceptionFromError` turning errors into transport exceptions). -/
theorem C14_flush_with_writer_present (env : Env) (p : StreamTransport) (tr : List Event)
    (hw : p.Writer ≠ .nil) (htrans : env.translatesErrors) :
    (p.Writer.isFlusher = false →
      (p.Flush env tr).ret = none ∧ (p.Flush env tr).trace = tr ∧ (p.Flush env tr).p = p) ∧
    (p.Writer.isFlusher = true →
      (p.Flush env tr).trace = tr ++ [Event.flush p.Writer] ∧
      (p.Flush env tr).p = p ∧
      ((p.Flush env tr).ret ≠ none ↔ env.flushResult p.Writer tr ≠ none)) := by
  constructor
  · intro hf
    simp [StreamTransport.Flush, hw, hf]
  · intro hf
    cases hres : env.flushResult p.Writer tr with
    | none => simp [StreamTransport.Flush, hw, hf, hres]
    | some e =>
      have hne := htrans e
      simp [StreamTransport.Flush, hw, hf, hres, hne]

/-- Witness of `C14_flush_with_writer_present`: the flushable writer
`flushableW` in the environment where flushing fails. -/
theorem C14_flush_with_writer_present_witness :
    (flushableW.isFlusher = false →
      (StreamTransport.Flush envFlushFails ⟨.nil, flushableW, false⟩ []).ret = none ∧
      (StreamTransport.Flush envFlushFails ⟨.nil, flushableW, false⟩ []).trace = [] ∧
      (StreamTransport.Flush envFlushFails ⟨.nil, flushableW, false⟩ []).p
        = ⟨.nil, flushableW, false⟩) ∧
    (flushableW.isFlusher = true →
      (StreamTransport.Flush envFlushFails ⟨.nil, flushableW, false⟩ []).trace
        = [] ++ [Event.flush flushableW] ∧
      (StreamTransport.Flush envFlushFails ⟨.nil, flushableW, false⟩ []).p
        = ⟨.nil, flushableW, false⟩ ∧
      ((StreamTransport.Flush envFlushFails ⟨.nil, flushableW, false⟩ []).ret ≠ none ↔
        envFlushFails.flushResult flushableW [] ≠ none)) :=
  C14_flush_with_writer_present envFlushFails ⟨.nil, flushableW, false⟩ [] (by decide)
    (fun e => by simp [envFlushFails])

/-- What `bufio.NewReader` returns is a `*bufio.Reader`. -/
theorem bufio_NewReader_is_bufReader (rd : StreamObj) (heap : Nat) :
    ∃ a sz u, (bufio.NewReader rd heap).1 = .bufReader a sz u := by
  cases rd <;> simp only [bufio.NewReader] <;> (try split_ifs) <;> exact ⟨_, _, _, rfl⟩

/-- What `bufio.NewWriter` returns is a `*bufio.Writer`. -/
theorem bufio_NewWriter_is_bufWriter (w : StreamObj) (heap : Nat) :
    ∃ a sz u, (bufio.NewWriter w heap).1 = .bufWriter a sz u := by
  cases w <;> simp only [bufio.NewWriter] <;> (try split_ifs) <;> exact ⟨_, _, _, rfl⟩

/-- C15. For every argument: `NewStreamTransportR` gives reader present, writer
nil, flag false; `NewStreamTransportW` gives reader nil, writer present, flag
false; `NewStreamTransport` gives a `*bufio.Reader` as reader and a
`*bufio.Writer` as writer, two distinct objects, flag false;
`NewStreamTransportRW` gives one `*bufio.ReadWriter` as both reader and writer,
flag true. -/
theorem C15_constructor_shapes (r w : StreamObj) (heap : Nat) :
    ((NewStreamTransportR r heap).1.Reader ≠ .nil ∧
      (NewStreamTransportR r heap).1.Writer = .nil ∧
      (NewStreamTransportR r heap).1.IsReadWriter = false) ∧
    ((NewStreamTransportW w heap).1.Reader = .nil ∧
      (NewStreamTransportW w heap).1.Writer ≠ .nil ∧
      (NewStreamTransportW w heap).1.IsReadWriter = false) ∧
    ((∃ a sz u, (NewStreamTransport r w heap).1.Reader = .bufReader a sz u) ∧
      (∃ a sz u, (NewStreamTransport r w heap).1.Writer = .bufWriter a sz u) ∧
      (NewStreamTransport r w heap).1.Reader ≠ (NewStreamTransport r w heap).1.Writer ∧
      (NewStreamTransport r w heap).1.IsReadWriter = false) ∧
    ((∃ a br bw, (NewStreamTransportRW r heap).1.Reader = .bufReadWriter a br bw) ∧
      (NewStreamTransportRW r heap).1.Writer = (NewStreamTransportRW r heap).1.Reader ∧
      (NewStreamTransportRW r heap).1.IsReadWriter = true) := by
  obtain ⟨a1, s1, u1, h1⟩ := bufio_NewReader_is_bufReader r heap
  obtain ⟨a2, s2, u2, h2⟩ := bufio_NewWriter_is_bufWriter w heap
  obtain ⟨a3, s3, u3, h3⟩ := bufio_NewWriter_is_bufWriter w (bufio.NewReader r heap).2
  refine ⟨⟨?_, ?_, ?_⟩, ⟨?_, ?_, ?_⟩, ⟨?_, ?_, ?_, ?_⟩, ⟨?_, ?_, ?_⟩⟩
  · simp [NewStreamTransportR, h1]
  · simp [NewStreamTransportR]
  · simp [NewStreamTransportR]
  · simp [NewStreamTransportW]
  · simp [NewStreamTransportW, h2]
  · simp [NewStreamTransportW]
  · exact ⟨a1, s1, u1, by simp [NewStreamTransport, h1]⟩
  · exact ⟨a3, s3, u3, by simp [NewStreamTransport, h3]⟩
  · simp [NewStreamTransport, h1, h3]
  · simp [NewStreamTransport]
  · exact ⟨(bufio.NewWriter r (bufio.NewReader r heap).2).2, (bufio.NewReader r heap).1,
      (bufio.NewWriter r (bufio.NewReader r heap).2).1, rfl⟩
  · simp [NewStreamTransportRW]
  · simp [NewStreamTransportRW]

/-- C16 (evaluation at the failing input). The transport holding the closable
combined stream `closableRW` in both fields with `IsReadWriter` true satisfies
the aliasing invariant; after one successful `Close` the flag is still true,
the reader is nil and the writer is still the stream, so the invariant no
longer holds. -/
theorem C16_close_breaks_aliasing_invariant :
    rwInvariant ⟨closableRW, closableRW, true⟩ ∧
    (StreamTransport.Close envOk ⟨closableRW, closableRW, true⟩ []).ret = none ∧
    (StreamTransport.Close envOk ⟨closableRW, closableRW, true⟩ []).p
      = ⟨.nil, closableRW, true⟩ ∧
    ¬ rwInvariant (StreamTransport.Close envOk ⟨closableRW, closableRW, true⟩ []).p := by
  refine ⟨fun _ => rfl, rfl, rfl, ?_⟩
  intro h
  have h2 := h rfl
  revert h2
  decide

/-! ## Reason codes, field messages, constructor-built transports, composition -/

/-- C17 (counterexample). `NewTProtocolException` accepts any `int`: with the
argument 99 it returns an exception whose reason is 99, outside the closed
set; a context constructor and the adapter hand such a reason on. -/
theorem C17_counterexample :
    (NewTProtocolException 99 "x").TypeId = 99 ∧
    ¬ validTypeId (NewTProtocolException 99 "x").TypeId ∧
    (NewTProtocolExceptionReadStruct "S" (some (.protocol ⟨99, "x"⟩))).map
      (fun r => r.TypeId) = .ok 99 ∧
    (newTProtocolExceptionFromError (some (.protocol ⟨99, "x"⟩))).map
      (fun r => r.TypeId) = some 99 := by
  refine ⟨rfl, ?_, rfl, rfl⟩
  unfold validTypeId
  decide

/-- The promotion keeps a reason code inside the closed set. -/
theorem validTypeId_promoteTypeId (e : tProtocolException) (h : validTypeId e.TypeId) :
    validTypeId (promoteTypeId e) := by
  unfold promoteTypeId
  by_cases h0 : e.TypeId = UNKNOWN_PROTOCOL_EXCEPTION
  · simp [h0, validTypeId]
  · simpa [h0] using h

/-- C17 (amended). The construction functions keep reason codes inside the
closed set: `NewTProtocolException` called with a reason `t` of the set returns
an exception of reason `t`; each context constructor applied to a protocol
exception whose reason is in the set returns an exception whose reason is in
the set; the adapter returns a protocol exception of the set unchanged, and for
a `base64.CorruptInputError` or any other error it returns a reason of the
set. -/
theorem C17_reason_codes_stay_in_closed_set (t : Int) (m : String) (e : tProtocolException)
    (fieldId : Int) (fieldName structName : String)
    (ht : validTypeId t) (he : validTypeId e.TypeId) :
    ((NewTProtocolException t m).TypeId = t ∧ validTypeId (NewTProtocolException t m).TypeId) ∧
    (∃ r, NewTProtocolExceptionReadField fieldId fieldName structName (some (.protocol e))
        = .ok r ∧ validTypeId r.TypeId) ∧
    (∃ r, NewTProtocolExceptionWriteField fieldId fieldName structName (some (.protocol e))
        = .ok r ∧ validTypeId r.TypeId) ∧
    (∃ r, NewTProtocolExceptionReadStruct structName (some (.protocol e))
        = .ok r ∧ validTypeId r.TypeId) ∧
    (∃ r, NewTProtocolExceptionWriteStruct structName (some (.protocol e))
        = .ok r ∧ validTypeId r.TypeId) ∧
    (newTProtocolExceptionFromError (some (.protocol e)) = some e) ∧
    (∀ offset, ∃ r, newTProtocolExceptionFromError (some (.corruptInput offset)) = some r ∧
      validTypeId r.TypeId) ∧
    (∀ msg, ∃ r, newTProtocolExceptionFromError (some (.other msg)) = some r ∧
      validTypeId r.TypeId) := by
  have hp := validTypeId_promoteTypeId e he
  refine ⟨⟨rfl, ht⟩, ⟨_, rfl, hp⟩, ⟨_, rfl, hp⟩, ⟨_, rfl, hp⟩, ⟨_, rfl, hp⟩, rfl, ?_, ?_⟩
  · intro offset
    exact ⟨_, rfl, by simp [validTypeId, NewTProtocolException, tProtocolException.TypeId]⟩
  · intro msg
    exact ⟨_, rfl, by simp [validTypeId, tProtocolException.TypeId]⟩

/-- Witness of `C17_reason_codes_stay_in_closed_set`: the reasons
`BAD_VERSION` and `UNKNOWN_PROTOCOL_EXCEPTION`. -/
theorem C17_reason_codes_stay_in_closed_set_witness :
    validTypeId BAD_VERSION ∧
    (∃ r, NewTProtocolExceptionReadField 1 "id" "Point"
        (some (.protocol ⟨UNKNOWN_PROTOCOL_EXCEPTION, "eof"⟩)) = .ok r ∧ validTypeId r.TypeId) :=
  ⟨by unfold validTypeId; decide,
    (C17_reason_codes_stay_in_closed_set BAD_VERSION "bad" ⟨UNKNOWN_PROTOCOL_EXCEPTION, "eof"⟩
      1 "id" "Point" (by unfold validTypeId; decide) (by unfold validTypeId; decide)).2.1⟩

/-- C18 (evaluation at the failing input). For the field ids 1 and 12 the
message of the field constructors holds the single character of code point 1,
respectively 12 (a form feed), where the specification has the decimal
numerals `1` and `12`: the two texts differ. -/
theorem C18_field_id_is_code_point_not_decimal :
    NewTProtocolExceptionReadField 12 "f" "S" (some (.protocol ⟨SIZE_LIMIT, "m"⟩))
      = .ok ⟨SIZE_LIMIT, "Unable to read field " ++ String.singleton (Char.ofNat 12)
          ++ " (f) in S due to: m"⟩ ∧
    NewTProtocolExceptionWriteField 1 "f" "S" (some (.protocol ⟨SIZE_LIMIT, "m"⟩))
      = .ok ⟨SIZE_LIMIT, "Unable to write field " ++ String.singleton (Char.ofNat 1)
          ++ " (f) in S due to: m"⟩ ∧
    decimalFieldMessage "read" 12 "f" "S" "m" = "Unable to read field 12 (f) in S due to: m" ∧
    decimalFieldMessage "write" 1 "f" "S" "m" = "Unable to write field 1 (f) in S due to: m" ∧
    "Unable to read field " ++ String.singleton (Char.ofNat 12) ++ " (f) in S due to: m"
      ≠ decimalFieldMessage "read" 12 "f" "S" "m" ∧
    "Unable to write field " ++ String.singleton (Char.ofNat 1) ++ " (f) in S due to: m"
      ≠ decimalFieldMessage "write" 1 "f" "S" "m" := by
  refine ⟨rfl, rfl, ?_, ?_, ?_, ?_⟩ <;> decide

/-- `Close` on a transport whose present fields are not closers makes no call,
returns no error and clears both fields. -/
theorem close_without_closers (env : Env) (p : StreamTransport) (tr : List Event)
    (hr : p.Reader.isCloser = false) (hw : p.Writer.isCloser = false) :
    (p.Close env tr).ret = none ∧ (p.Close env tr).trace = tr ∧
    (p.Close env tr).p.Reader = .nil ∧ (p.Close env tr).p.Writer = .nil := by
  by_cases h1 : p.Reader = .nil <;> by_cases h2 : p.Writer = .nil <;>
    simp [StreamTransport.Close, StreamTransport.closeWriter, h1, h2, hr, hw]

/-- No `*bufio.Reader` is a closer. -/
theorem bufio_NewReader_not_closer (rd : StreamObj) (heap : Nat) :
    (bufio.NewReader rd heap).1.isCloser = false := by
  obtain ⟨a, sz, u, h⟩ := bufio_NewReader_is_bufReader rd heap
  rw [h]
  rfl

/-- No `*bufio.Writer` is a closer. -/
theorem bufio_NewWriter_not_closer (w : StreamObj) (heap : Nat) :
    (bufio.NewWriter w heap).1.isCloser = false := by
  obtain ⟨a, sz, u, h⟩ := bufio_NewWriter_is_bufWriter w heap
  rw [h]
  rfl

/-- C19. For the transport any of the four constructors returns, whatever the
supplied streams, their capabilities and the results of their calls, `Close`
returns no error, makes no call on any object (the trace is unchanged, so no
close and no flush operation is invoked) and leaves both fields nil. -/
theorem C19_close_of_constructed_transport_calls_nothing (r w : StreamObj) (heap : Nat)
    (env : Env) (tr : List Event) :
    (((NewStreamTransport r w heap).1.Close env tr).ret = none ∧
      ((NewStreamTransport r w heap).1.Close env tr).trace = tr ∧
      ((NewStreamTransport r w heap).1.Close env tr).p.Reader = .nil ∧
      ((NewStreamTransport r w heap).1.Close env tr).p.Writer = .nil) ∧
    (((NewStreamTransportR r heap).1.Close env tr).ret = none ∧
      ((NewStreamTransportR r heap).1.Close env tr).trace = tr ∧
      ((NewStreamTransportR r heap).1.Close env tr).p.Reader = .nil ∧
      ((NewStreamTransportR r heap).1.Close env tr).p.Writer = .nil) ∧
    (((NewStreamTransportW w heap).1.Close env tr).ret = none ∧
      ((NewStreamTransportW w heap).1.Close env tr).trace = tr ∧
      ((NewStreamTransportW w heap).1.Close env tr).p.Reader = .nil ∧
      ((NewStreamTransportW w heap).1.Close env tr).p.Writer = .nil) ∧
    (((NewStreamTransportRW r heap).1.Close env tr).ret = none ∧
      ((NewStreamTransportRW r heap).1.Close env tr).trace = tr ∧
      ((NewStreamTransportRW r heap).1.Close env tr).p.Reader = .nil ∧
      ((NewStreamTransportRW r heap).1.Close env tr).p.Writer = .nil) := by
  refine ⟨?_, ?_, ?_, ?_⟩
  · exact close_without_closers env _ tr
      (by simp [NewStreamTransport, bufio_NewReader_not_closer])
      (by simp [NewStreamTransport, bufio_NewWriter_not_closer])
  · exact close_without_closers env _ tr
      (by simp [NewStreamTransportR, bufio_NewReader_not_closer])
      (by simp [NewStreamTransportR, StreamObj.isCloser])
  · exact close_without_closers env _ tr
      (by simp [NewStreamTransportW, StreamObj.isCloser])
      (by simp [NewStreamTransportW, bufio_NewWriter_not_closer])
  · exact close_without_closers env _ tr
      (by simp [NewStreamTransportRW, bufio.NewReadWriter, StreamObj.isCloser])
      (by simp [NewStreamTransportRW, bufio.NewReadWriter, StreamObj.isCloser])

/-- The promotion never yields `UNKNOWN_PROTOCOL_EXCEPTION`. -/
theorem promote_ne_unknown (t : Int) : promote t ≠ UNKNOWN_PROTOCOL_EXCEPTION := by
  unfold promote
  by_cases h : t = UNKNOWN_PROTOCOL_EXCEPTION <;> simp [h]

/-- The promotion is idempotent. -/
theorem promote_promote (t : Int) : promote (promote t) = promote t := by
  unfold promote
  by_cases h : t = UNKNOWN_PROTOCOL_EXCEPTION <;> simp [h]

/-- A text is a proper suffix of itself with a context that ends in
`" due to: "` put in front. -/
theorem suffix_and_longer (ctx m : String) :
    m.data <:+ (ctx ++ " due to: " ++ m).data ∧ m.length < (ctx ++ " due to: " ++ m).length := by
  constructor
  · rw [String.data_append]
    exact List.suffix_append _ _
  · have h9 : (" due to: " : String).length = 9 := by decide
    simp only [String.length_append, h9]
    omega

/-- One context constructor applied to a protocol exception: the reason is the
promoted one, the inner message is a proper suffix of the new message. -/
theorem wrap_apply_step (w : Wrap) (e : tProtocolException) :
    ∃ r, w.apply (some (GoError.protocol e)) = .ok r ∧
      r.typeId = promote e.typeId ∧
      e.message.data <:+ r.message.data ∧ e.message.length < r.message.length := by
  cases w with
  | readField fieldId fieldName structName =>
    exact ⟨_, rfl, rfl, suffix_and_longer _ e.message⟩
  | writeField fieldId fieldName structName =>
    exact ⟨_, rfl, rfl, suffix_and_longer _ e.message⟩
  | readStruct structName =>
    exact ⟨_, rfl, rfl, suffix_and_longer _ e.message⟩
  | writeStruct structName =>
    exact ⟨_, rfl, rfl, suffix_and_longer _ e.message⟩

/-- A sequence of context constructors applied to a protocol exception never
panics; the promoted reason is kept and the message only grows in front. -/
theorem wrapAll_spec (ws : List Wrap) (e : tProtocolException) :
    ∃ r, wrapAll ws e = .ok r ∧
      promote r.typeId = promote e.typeId ∧
      (ws ≠ [] → r.typeId = promote e.typeId) ∧
      e.message.data <:+ r.message.data ∧
      e.message.length ≤ r.message.length ∧
      (ws ≠ [] → e.message.length < r.message.length) := by
  induction ws generalizing e with
  | nil => exact ⟨e, rfl, rfl, fun h => absurd rfl h, List.suffix_refl _, le_refl _,
      fun h => absurd rfl h⟩
  | cons w ws ih =>
    obtain ⟨e1, h1, ht1, hs1, hl1⟩ := wrap_apply_step w e
    obtain ⟨r, hr, hpt, ht2, hs, hle, _⟩ := ih e1
    refine ⟨r, ?_, ?_, ?_, hs1.trans hs, by omega, fun _ => by omega⟩
    · simp [wrapAll, h1, hr]
    · rw [hpt, ht1, promote_promote]
    · intro _
      by_cases hws : ws = []
      · subst hws
        simp [wrapAll] at hr
        rw [← hr, ht1]
      · rw [ht2 hws, ht1, promote_promote]

/-- C20. Context wrapping composes: for every protocol exception `e` and every
non-empty sequence of context constructors applied one after the other, the
result exists, its reason is `promote` of the reason of `e` (so it is never
`UNKNOWN_PROTOCOL_EXCEPTION`, and it is the reason a single wrapping gives),
the message of `e` is a suffix of the final message, and the final message is
strictly longer. -/
theorem C20_context_wrapping_composes (e : tProtocolException) (ws : List Wrap)
    (hne : ws ≠ []) :
    ∃ r, wrapAll ws e = .ok r ∧
      r.TypeId = promote e.TypeId ∧
      r.TypeId ≠ UNKNOWN_PROTOCOL_EXCEPTION ∧
      (∀ w : Wrap, ∃ r1, wrapAll [w] e = .ok r1 ∧ r1.TypeId = r.TypeId) ∧
      e.Error.data <:+ r.Error.data ∧
      e.Error.length < r.Error.length := by
  obtain ⟨r, hr, _, ht, hs, _, hl⟩ := wrapAll_spec ws e
  refine ⟨r, hr, ht hne, ?_, ?_, hs, hl hne⟩
  · show r.typeId ≠ UNKNOWN_PROTOCOL_EXCEPTION
    rw [ht hne]
    exact promote_ne_unknown _
  · intro w
    obtain ⟨r1, h1, ht1, _⟩ := wrap_apply_step w e
    refine ⟨r1, by simp [wrapAll, h1], ?_⟩
    show r1.typeId = r.typeId
    rw [ht1, ht hne]

/-- Witness of `C20_context_wrapping_composes`: a field read failure wrapped
by the enclosing struct read. -/
theorem C20_context_wrapping_composes_witness :
    [Wrap.readField 1 "id" "Point", Wrap.readStruct "Point"] ≠ [] ∧
    ∃ r, wrapAll [Wrap.readField 1 "id" "Point", Wrap.readStruct "Point"]
        ⟨UNKNOWN_PROTOCOL_EXCEPTION, "eof"⟩ = .ok r ∧
      r.TypeId = promote (tProtocolException.TypeId ⟨UNKNOWN_PROTOCOL_EXCEPTION, "eof"⟩) ∧
      r.TypeId ≠ UNKNOWN_PROTOCOL_EXCEPTION ∧
      (∀ w : Wrap, ∃ r1, wrapAll [w] ⟨UNKNOWN_PROTOCOL_EXCEPTION, "eof"⟩ = .ok r1 ∧
        r1.TypeId = r.TypeId) ∧
      (tProtocolException.Error ⟨UNKNOWN_PROTOCOL_EXCEPTION, "eof"⟩).data <:+ r.Error.data ∧
      (tProtocolException.Error ⟨UNKNOWN_PROTOCOL_EXCEPTION, "eof"⟩).length < r.Error.length :=
  ⟨by decide, C20_context_wrapping_composes ⟨UNKNOWN_PROTOCOL_EXCEPTION, "eof"⟩
    [Wrap.readField 1 "id" "Point", Wrap.readStruct "Point"] (by decide)⟩

/-! ## Where the aliasing invariant does hold -/

/-- The aliasing invariant holds for the result of every constructor and for
the empty transport. -/
theorem rwInvariant_of_constructors (r w : StreamObj) (heap : Nat) :
    rwInvariant (NewStreamTransport r w heap).1 ∧
    rwInvariant (NewStreamTransportR r heap).1 ∧
    rwInvariant (NewStreamTransportW w heap).1 ∧
    rwInvariant (NewStreamTransportRW r heap).1 ∧
    rwInvariant StreamTransport.empty := by
  refine ⟨?_, ?_, ?_, ?_, ?_⟩ <;> intro h
  · simp [NewStreamTransport] at h
  · simp [NewStreamTransportR] at h
  · simp [NewStreamTransportW] at h
  · simp [NewStreamTransportRW]
  · simp [StreamTransport.empty] at h

/-- The aliasing invariant holds for every transport the variant selection of
`GetTransport` returns. -/
theorem rwInvariant_of_selection (rd wr : StreamObj) (flag : Bool) (heap : Nat)
    (t : StreamTransport) (h : Nat)
    (hok : (if flag then
        match assertReadWriter rd with
        | .error e => .error e
        | .ok rw => .ok (NewStreamTransportRW rw heap)
      else if rd ≠ .nil ∧ wr ≠ .nil then .ok (NewStreamTransport rd wr heap)
      else if rd ≠ .nil ∧ wr = .nil then .ok (NewStreamTransportR rd heap)
      else if rd = .nil ∧ wr ≠ .nil then .ok (NewStreamTransportW wr heap)
      else .ok (StreamTransport.empty, heap) : Except Panic (StreamTransport × Nat))
        = .ok (t, h)) :
    rwInvariant t := by
  have hc := rwInvariant_of_constructors
  cases flag with
  | true =>
    by_cases hrw : rd.isReadWriter = true
    · simp [assertReadWriter, hrw] at hok
      have ht : t = (NewStreamTransportRW rd heap).1 := by rw [hok]
      rw [ht]
      exact (hc rd wr heap).2.2.2.1
    · simp [assertReadWriter, hrw] at hok
  | false =>
    by_cases hr : rd = .nil <;> by_cases hw : wr = .nil <;> simp [hr, hw] at hok
    · rw [← hok.1]
      exact (hc rd wr heap).2.2.2.2
    · have ht : t = (NewStreamTransportW wr heap).1 := by rw [hok]
      rw [ht]
      exact (hc rd wr heap).2.2.1
    · have ht : t = (NewStreamTransportR rd heap).1 := by rw [hok]
      rw [ht]
      exact (hc rd wr heap).2.1
    · have ht : t = (NewStreamTransport rd wr heap).1 := by rw [hok]
      rw [ht]
      exact (hc rd wr heap).1

/-- The aliasing invariant holds for every transport `GetTransport` returns. -/
theorem rwInvariant_of_getTransport (p : StreamTransportFactory) (trans : TTransport)
    (heap : Nat) (t : StreamTransport) (h : Nat)
    (hok : p.GetTransport trans heap = .ok (t, h)) : rwInvariant t := by
  cases trans with
  | nil => exact rwInvariant_of_selection p.Reader p.Writer p.IsReadWriter heap t h hok
  | streamTransport t0 =>
    exact rwInvariant_of_selection t0.Reader t0.Writer t0.IsReadWriter heap t h hok
  | other k => exact rwInvariant_of_selection p.Reader p.Writer p.IsReadWriter heap t h hok

/-- The methods `Read`, `Write` and `Flush` leave the transport as it is, and
with it the aliasing invariant. -/
theorem transport_unchanged_by_read_write_flush (env : Env) (p : StreamTransport)
    (tr : List Event) (buf : List Nat) :
    (p.Read env tr buf).p = p ∧ (p.Write env tr buf).p = p ∧ (p.Flush env tr).p = p := by
  refine ⟨?_, ?_, ?_⟩
  · unfold StreamTransport.Read
    split <;> rfl
  · unfold StreamTransport.Write
    split <;> rfl
  · unfold StreamTransport.Flush
    split
    · rfl
    · split
      · split <;> rfl
      · rfl

end Thrift
